import Mathlib

/-!
Verification development for the classical plasma transport module
(plasmapy/physics/transport.py).

Modelling conventions used throughout this file:

* Machine floating-point scalars are modelled as exact numbers: rational
  literals from the source are read as the exact decimals they denote.
  Pure table-lookup and orchestration code is modelled over the rationals
  so that concrete runs are decidable; the analytic evaluators (which use
  sqrt, log and fractional powers) are modelled over the reals.
* The external collaborators of the module (the species database, the
  Debye-length, Hall-parameter and collision-rate primitives, and the
  downstream per-coefficient evaluators seen from the orchestrator) are
  taken as explicit function parameters, mirroring the import structure
  of the source file.
* numpy constants are modelled by named rationals below; np.pi denotes
  the float approximation of pi used by the source, carried here as the
  exact decimal of its repr.
* Exceptions are modelled with Except String; warning emission and the
  order of collaborator invocations in the orchestrator are modelled by
  an explicit event trace.
-/

/-- Electron mass, SI value (external constant; used by the
orchestrator model, which works over the rationals). -/
def m_e_Q : ℚ := 9.10938356e-31

noncomputable section

/-- Boltzmann constant, SI value, imported by the source from the
constants module (external collaborator). -/
def k_B : ℝ := 1.38064852e-23

/-- Elementary charge, SI value (external constant). -/
def e_charge : ℝ := 1.6021766208e-19

/-- Vacuum permittivity, SI value (external constant). -/
def eps0 : ℝ := 8.854187817e-12

/-- Reduced Planck constant, SI value (external constant). -/
def hbar : ℝ := 1.0545718e-34

/-- The value of np.pi (the float approximation of pi used by the
source), modelled as the exact decimal of its repr. -/
def np_pi : ℝ := 3.141592653589793

end

/-- A charge state Z as the source handles it: a finite number or
np.inf (charge_state may return infinity). -/
inductive ZVal where
  | fin (q : ℚ)
  | inf
deriving DecidableEq

/-- An entry of an allowed_Z list: either a numeric Z value or the
string sentinel arbitrary. -/
inductive ZEntry where
  | num (z : ZVal)
  | arb
deriving DecidableEq

/-- Rendering of a Z value for error messages (the f-string
interpolation of Z in the source). -/
def zvalStr : ZVal → String
  | .fin q => toString q
  | .inf => "inf"

/-- The loop pattern of check_Z: iterate over the list with a running
index, remembering the index of the last element satisfying p.  The
first argument is the index of the head of the remaining list, the
second the accumulator (np.nan modelled as none). -/
def lastMatchIdx (p : ZEntry → Bool) : ℕ → Option ℕ → List ZEntry → Option ℕ
  | _, acc, [] => acc
  | i, acc, v :: rest => lastMatchIdx p (i + 1) (if p v then some i else acc) rest

/-- check_Z from the source: scan allowed_Z for an arbitrary sentinel
(remembering its index), scan for an exact match with Z, and branch:
exact match wins, otherwise fall back to the arbitrary index, otherwise
raise a PhysicsError naming Z.  The caller name in the message comes
from runtime stack introspection in the source and is rendered here as
the literal function name. -/
def check_Z (allowed_Z : List ZEntry) (Z : ZVal) : Except String ℕ :=
  let the_arbitrary_idx := lastMatchIdx (fun v => v == ZEntry.arb) 0 none allowed_Z
  let Z_idx := lastMatchIdx (fun v => v == ZEntry.num Z) 0 none allowed_Z
  match Z_idx with
  | none =>
    match the_arbitrary_idx with
    | none => .error (zvalStr Z ++ " is not an available Z value in check_Z")
    | some a => .ok a
  | some i => .ok i

/-- The field_orientation argument, after validation: the six accepted
spellings (long and short forms of parallel and perpendicular, cross,
and all). -/
inductive FieldOrientation where
  | parallel
  | par
  | perpendicular
  | perp
  | cross
  | all
deriving DecidableEq

/-- The value returned by a nondimensional evaluator: a scalar
component, the 3-array returned for the all orientation, or the
5-component viscosity array. -/
inductive NDResult where
  | scalar (v : ℝ)
  | triple (vpar vperp vcross : ℝ)
  | quint (v0 v1 v2 v3 v4 : ℝ)

noncomputable section

/-- allowed_Z of get_spitzer_harm_coeffs. -/
def sh_allowed_Z : List ZEntry :=
  [.num (.fin 1), .num (.fin 2), .num (.fin 4), .num (.fin 16), .num .inf]

def sh_gamma_E : List ℝ := [0.5816, 0.6833, 0.7849, 0.9225, 1.0000]

def sh_gamma_T : List ℝ := [0.2727, 0.4137, 0.5714, 0.8279, 1.0000]

def sh_delta_E : List ℝ := [0.4652, 0.5787, 0.7043, 0.8870, 1.0000]

def sh_delta_T : List ℝ := [0.2252, 0.3563, 0.5133, 0.7907, 1.0000]

/-- get_spitzer_harm_coeffs: resolve Z against the Spitzer-Harm table
and return the four fit constants (gamma_E, gamma_T, delta_E, delta_T). -/
def get_spitzer_harm_coeffs (Z : ZVal) : Except String (ℝ × ℝ × ℝ × ℝ) :=
  (check_Z sh_allowed_Z Z).map (fun Z_idx =>
    (sh_gamma_E.getD Z_idx 0, sh_gamma_T.getD Z_idx 0,
     sh_delta_E.getD Z_idx 0, sh_delta_T.getD Z_idx 0))

/-- nondim_tc_e_spitzer. -/
def nondim_tc_e_spitzer (Z : ZVal) : Except String ℝ :=
  (get_spitzer_harm_coeffs Z).map (fun c =>
    let gamma_E := c.1
    let gamma_T := c.2.1
    let delta_E := c.2.2.1
    let delta_T := c.2.2.2
    (64 / np_pi) * delta_T * (5 / 3 - (gamma_T * delta_E) / (delta_T * gamma_E)))

/-- nondim_resist_spitzer. -/
def nondim_resist_spitzer (Z : ZVal) : Except String ℝ :=
  (get_spitzer_harm_coeffs Z).map (fun c =>
    let gamma_E := c.1
    (3 * np_pi / 32) * (1 / gamma_E))

/-- nondim_tec_spitzer. -/
def nondim_tec_spitzer (Z : ZVal) : Except String ℝ :=
  (get_spitzer_harm_coeffs Z).map (fun c =>
    let gamma_E := c.1
    let delta_E := c.2.2.1
    5 / 2 * (8 / 5 * (delta_E / gamma_E) - 1))

/-- allowed_Z of the Braginskii electron-side tables (thermal
conductivity, resistivity, thermoelectric conductivity). -/
def brag_allowed_Z : List ZEntry :=
  [.num (.fin 1), .num (.fin 2), .num (.fin 3), .num (.fin 4), .num .inf]

def tce_delta_0 : List ℝ := [3.7703, 1.0465, 0.5814, 0.4106, 0.0961]

def tce_delta_1 : List ℝ := [14.79, 10.80, 9.618, 9.055, 7.482]

def tce_gamma_1_prime : List ℝ := [4.664, 3.957, 3.721, 3.604, 3.25]

def tce_gamma_0_prime : List ℝ := [11.92, 5.118, 3.525, 2.841, 1.20]

def tce_gamma_1_doubleprime : List ℝ := [2.500, 2.500, 2.500, 2.500, 2.500]

def tce_gamma_0_doubleprime : List ℝ := [21.67, 15.37, 13.53, 12.65, 10.23]

/-- nondim_tc_e_braginskii: Braginskii electron thermal conductivity
components as rational functions of the Hall parameter. -/
def nondim_tc_e_braginskii (hall : ℝ) (Z : ZVal) (field_orientation : FieldOrientation) :
    Except String NDResult :=
  (check_Z brag_allowed_Z Z).map (fun Z_idx =>
    let gamma_0 := tce_gamma_0_prime.getD Z_idx 0 / tce_delta_0.getD Z_idx 0
    let Delta := hall ^ 4 + tce_delta_1.getD Z_idx 0 * hall ^ 2 + tce_delta_0.getD Z_idx 0
    let kappa_par := gamma_0
    let kappa_perp :=
      (tce_gamma_1_prime.getD Z_idx 0 * hall ^ 2 + tce_gamma_0_prime.getD Z_idx 0) / Delta
    let kappa_cross :=
      (tce_gamma_1_doubleprime.getD Z_idx 0 * hall ^ 3 +
        tce_gamma_0_doubleprime.getD Z_idx 0 * hall) / Delta
    match field_orientation with
    | .parallel | .par => .scalar kappa_par
    | .perpendicular | .perp => .scalar kappa_perp
    | .cross => .scalar kappa_cross
    | .all => .triple kappa_par kappa_perp kappa_cross)

/-- nondim_tc_i_braginskii: Braginskii ion thermal conductivity
(universal constants, no Z table). -/
def nondim_tc_i_braginskii (hall : ℝ) (field_orientation : FieldOrientation) : NDResult :=
  let kappa_par_coeff_0 : ℝ := 3.906
  let kappa_par := kappa_par_coeff_0
  let kappa_perp_coeff_2 : ℝ := 2.0
  let kappa_perp_coeff_0 : ℝ := 2.645
  let delta_1 : ℝ := 2.70
  let delta_0 : ℝ := 0.677
  let Delta := hall ^ 4 + delta_1 * hall ^ 2 + delta_0
  let kappa_perp := (kappa_perp_coeff_2 * hall ^ 2 + kappa_perp_coeff_0) / Delta
  let kappa_cross_coeff_3 : ℝ := 2.5
  let kappa_cross_coeff_1 : ℝ := 4.65
  let kappa_cross := (kappa_cross_coeff_3 * hall ^ 3 + kappa_cross_coeff_1 * hall) / Delta
  match field_orientation with
  | .parallel | .par => .scalar kappa_par
  | .perpendicular | .perp => .scalar kappa_perp
  | .cross => .scalar kappa_cross
  | .all => .triple kappa_par kappa_perp kappa_cross

/-- allowed_Z of the Braginskii electron viscosity table. -/
def visc_e_allowed_Z : List ZEntry := [.num (.fin 1)]

/-- nondim_visc_e_braginskii: 5-component electron viscosity; the
shared rational forms are evaluated at hall and at 2*hall, with the
quartic denominator recomputed inside each closure from its own
argument (as in the source). -/
def nondim_visc_e_braginskii (hall : ℝ) (Z : ZVal) : Except String NDResult :=
  (check_Z visc_e_allowed_Z Z).map (fun _ =>
    let eta_prime_0 : ℝ := 0.733
    let eta_doubleprime_2 : ℝ := 2.05
    let eta_doubleprime_0 : ℝ := 8.50
    let eta_tripleprime_2 : ℝ := 1.0
    let eta_tripleprime_0 : ℝ := 7.91
    let delta_1 : ℝ := 13.8
    let delta_0 : ℝ := 11.6
    let eta_0_e := eta_prime_0
    let f_eta_2 : ℝ → ℝ := fun hall =>
      let Delta := hall ^ 4 + delta_1 * hall ^ 2 + delta_0
      (eta_doubleprime_2 * hall ^ 2 + eta_doubleprime_0) / Delta
    let eta_2_e := f_eta_2 hall
    let eta_1_e := f_eta_2 (2 * hall)
    let f_eta_4 : ℝ → ℝ := fun hall =>
      let Delta := hall ^ 4 + delta_1 * hall ^ 2 + delta_0
      (eta_tripleprime_2 * hall ^ 3 + eta_tripleprime_0 * hall) / Delta
    let eta_4_e := f_eta_4 hall
    let eta_3_e := f_eta_4 (2 * hall)
    .quint eta_0_e eta_1_e eta_2_e eta_3_e eta_4_e)

/-- nondim_visc_i_braginskii: 5-component ion viscosity.  Note that in
the source the quartic denominator Delta is computed once from the
outer hall argument and captured by both closures, so the components
evaluated at 2*hall still divide by Delta at hall. -/
def nondim_visc_i_braginskii (hall : ℝ) : NDResult :=
  let eta_prime_0 : ℝ := 0.96
  let eta_doubleprime_2 : ℝ := 6 / 5
  let eta_doubleprime_0 : ℝ := 2.23
  let eta_tripleprime_2 : ℝ := 1.0
  let eta_tripleprime_0 : ℝ := 2.38
  let delta_1 : ℝ := 4.03
  let delta_0 : ℝ := 2.33
  let Delta := hall ^ 4 + delta_1 * hall ^ 2 + delta_0
  let eta_0_i := eta_prime_0
  let f_eta_2 : ℝ → ℝ := fun hall =>
    (eta_doubleprime_2 * hall ^ 2 + eta_doubleprime_0) / Delta
  let eta_2_i := f_eta_2 hall
  let eta_1_i := f_eta_2 (2 * hall)
  let f_eta_4 : ℝ → ℝ := fun hall =>
    (eta_tripleprime_2 * hall ^ 3 + eta_tripleprime_0 * hall) / Delta
  let eta_4_i := f_eta_4 hall
  let eta_3_i := f_eta_4 (2 * hall)
  .quint eta_0_i eta_1_i eta_2_i eta_3_i eta_4_i

def res_delta_0 : List ℝ := [3.7703, 1.0465, 0.5814, 0.4106, 0.0961]

def res_delta_1 : List ℝ := [14.79, 10.80, 9.618, 9.055, 7.482]

def res_alpha_1_prime : List ℝ := [6.416, 5.523, 5.226, 5.077, 4.63]

def res_alpha_0_prime : List ℝ := [1.837, 0.5956, 0.3515, 0.2566, 0.0678]

def res_alpha_1_doubleprime : List ℝ := [1.704, 1.704, 1.704, 1.704, 1.704]

def res_alpha_0_doubleprime : List ℝ := [0.7796, 0.3439, 0.2400, 0.1957, 0.0940]

/-- nondim_resist_braginskii: Braginskii resistivity components.  The
parallel and perpendicular components are complements 1 - r of rational
functions r; the cross component is a plain rational function. -/
def nondim_resist_braginskii (hall : ℝ) (Z : ZVal) (field_orientation : FieldOrientation) :
    Except String NDResult :=
  (check_Z brag_allowed_Z Z).map (fun Z_idx =>
    let alpha_0 := 1 - res_alpha_0_prime.getD Z_idx 0 / res_delta_0.getD Z_idx 0
    let Delta := hall ^ 4 + res_delta_1.getD Z_idx 0 * hall ^ 2 + res_delta_0.getD Z_idx 0
    let alpha_par := alpha_0
    let alpha_perp :=
      1 - (res_alpha_1_prime.getD Z_idx 0 * hall ^ 2 + res_alpha_0_prime.getD Z_idx 0) / Delta
    let alpha_cross :=
      (res_alpha_1_doubleprime.getD Z_idx 0 * hall ^ 3 +
        res_alpha_0_doubleprime.getD Z_idx 0 * hall) / Delta
    match field_orientation with
    | .parallel | .par => .scalar alpha_par
    | .perpendicular | .perp => .scalar alpha_perp
    | .cross => .scalar alpha_cross
    | .all => .triple alpha_par alpha_perp alpha_cross)

def tec_delta_0 : List ℝ := [3.7703, 1.0465, 0.5814, 0.4106, 0.0961]

def tec_delta_1 : List ℝ := [14.79, 10.80, 9.618, 9.055, 7.482]

def tec_beta_1_prime : List ℝ := [5.101, 4.450, 4.233, 4.124, 3.798]

def tec_beta_0_prime : List ℝ := [2.681, 0.9473, 0.5905, 0.4478, 0.1461]

def tec_beta_1_doubleprime : List ℝ := [1.5, 1.5, 1.5, 1.5, 1.5]

def tec_beta_0_doubleprime : List ℝ := [3.053, 1.784, 1.442, 1.285, 0.877]

/-- nondim_tec_braginskii: Braginskii thermoelectric conductivity
components. -/
def nondim_tec_braginskii (hall : ℝ) (Z : ZVal) (field_orientation : FieldOrientation) :
    Except String NDResult :=
  (check_Z brag_allowed_Z Z).map (fun Z_idx =>
    let Delta := hall ^ 4 + tec_delta_1.getD Z_idx 0 * hall ^ 2 + tec_delta_0.getD Z_idx 0
    let beta_0 := tec_beta_0_prime.getD Z_idx 0 / tec_delta_0.getD Z_idx 0
    let beta_par := beta_0
    let beta_perp :=
      (tec_beta_1_prime.getD Z_idx 0 * hall ^ 2 + tec_beta_0_prime.getD Z_idx 0) / Delta
    let beta_cross :=
      (tec_beta_1_doubleprime.getD Z_idx 0 * hall ^ 3 +
        tec_beta_0_doubleprime.getD Z_idx 0 * hall) / Delta
    match field_orientation with
    | .parallel | .par => .scalar beta_par
    | .perpendicular | .perp => .scalar beta_perp
    | .cross => .scalar beta_cross
    | .all => .triple beta_par beta_perp beta_cross)

end

noncomputable section

/-- allowed_Z of all Ji-Held tables: Z = 1, Z = 2, and a closed-form
arbitrary-Z generator column. -/
def ji_held_allowed_Z : List ZEntry := [.num (.fin 1), .num (.fin 2), .arb]

/-- nondim_tc_e_ji_held: Ji-Held electron thermal conductivity.  Each
table has two literal rows (Z = 1, Z = 2) and a generating rational
function of Z used for the arbitrary column.  The charge state is
modelled as a finite rational here (the evaluator does arithmetic on
Z). -/
def nondim_tc_e_ji_held (hall : ℝ) (Z : ℚ) (field_orientation : FieldOrientation) :
    Except String NDResult :=
  (check_Z ji_held_allowed_Z (.fin Z)).map (fun Z_idx =>
    let Zr : ℝ := (Z : ℝ)
    let r := |Zr * hall|
    let f_kappa_par_e : ℝ → ℝ := fun Z =>
      (13.5 * Z ^ 2 + 54.4 * Z + 25.2) / (Z ^ 3 + 8.35 * Z ^ 2 + 15.2 * Z + 4.51)
    let f_kappa_0 : ℝ → ℝ := fun Z =>
      (9.91 * Z ^ 3 + 75.3 * Z ^ 2 + 518 * Z + 333) / 1000
    let f_kappa_1 : ℝ → ℝ := fun Z =>
      (0.211 * Z ^ 3 + (12.7 : ℝ) ^ 2 + 48.4 * Z + 6.45) / (Z + 57.1)
    let f_kappa_2 : ℝ → ℝ := fun Z =>
      (0.932 * Z ^ ((7 : ℝ) / 3) + 0.135 * Z ^ 2 + 12.3 * Z + 8.77) / (Z + 4.84)
    let f_kappa_3 : ℝ → ℝ := fun Z =>
      (0.246 * Z ^ 3 + 2.65 * Z ^ 2 - 92.8 * Z - 1.96) / (Z ^ 2 + 19.9 * Z + 35.3)
    let f_kappa_4 : ℝ → ℝ := fun Z =>
      (2.76 * Z ^ ((5 : ℝ) / 3) - 0.836 * Z ^ ((2 : ℝ) / 3) - 0.0611) / (Z - 0.214)
    let f_k_0 : ℝ → ℝ := fun Z => (0.0396 * Z ^ 3 + 46.3 * Z + 176) / 1000
    let f_k_1 : ℝ → ℝ := fun Z =>
      (15.4 * Z ^ 3 + 188 * Z ^ 2 + 240 * Z + 35.3) / (1000 * Z + 397)
    let f_k_2 : ℝ → ℝ := fun Z =>
      (-0.159 * Z ^ 2 - 12.5 * Z + 34.1) /
        (Z ^ ((2 : ℝ) / 3) + 0.741 * Z ^ ((1 : ℝ) / 3) + 31.0)
    let f_k_3 : ℝ → ℝ := fun Z => (0.431 * Z ^ 2 + 3.69 * Z + 0.0314) / (Z + 3.62)
    let f_k_4 : ℝ → ℝ := fun Z =>
      (0.0258 * Z ^ 2 - 1.63 * Z + 0.711) /
        (Z ^ ((4 : ℝ) / 3) + 4.36 * Z ^ ((2 : ℝ) / 3) + 2.75)
    let f_k_5 : ℝ → ℝ := fun Z =>
      (Z ^ 3 + 11.9 * Z ^ 2 + 28.8 * Z + 9.07) / (173 * Z + 133)
    let kappa_par_e : List ℝ := [3.204, 2.464, f_kappa_par_e Zr]
    let kappa_0 : List ℝ := [0.936, 1.749, f_kappa_0 Zr]
    let kappa_1 : List ℝ := [1.166, 2.635, f_kappa_1 Zr]
    let kappa_2 : List ℝ := [5.310, 13.87, f_kappa_2 Zr]
    let kappa_3 : List ℝ := [-1.635, -2.212, f_kappa_3 Zr]
    let kappa_4 : List ℝ := [2.370, 4.129, f_kappa_4 Zr]
    let k_0 : List ℝ := [0.222, 0.269, f_k_0 Zr]
    let k_1 : List ℝ := [0.343, 0.580, f_k_1 Zr]
    let k_2 : List ℝ := [0.655, 0.252, f_k_2 Zr]
    let k_3 : List ℝ := [0.899, 1.626, f_k_3 Zr]
    let k_4 : List ℝ := [-0.110, -0.201, f_k_4 Zr]
    let k_5 : List ℝ := [0.166, 0.255, f_k_5 Zr]
    let kappa_par := kappa_par_e.getD Z_idx 0
    let kappa_perp :=
      ((13 / 4 * Zr + Real.sqrt 2) * r + kappa_0.getD Z_idx 0 * kappa_par_e.getD Z_idx 0) /
        (r ^ 3 + kappa_4.getD Z_idx 0 * r ^ ((7 : ℝ) / 3) + kappa_3.getD Z_idx 0 * r ^ 2 +
          kappa_2.getD Z_idx 0 * r ^ ((5 : ℝ) / 3) + kappa_1.getD Z_idx 0 * r +
          kappa_0.getD Z_idx 0)
    let kappa_cross :=
      (r * (5 / 2 * r + k_0.getD Z_idx 0 / k_5.getD Z_idx 0)) /
        (r ^ 3 + k_4.getD Z_idx 0 * r ^ ((7 : ℝ) / 3) + k_3.getD Z_idx 0 * r ^ 2 +
          k_2.getD Z_idx 0 * r ^ ((5 : ℝ) / 3) + k_1.getD Z_idx 0 * r + k_0.getD Z_idx 0)
    match field_orientation with
    | .parallel | .par => .scalar (Zr * kappa_par)
    | .perpendicular | .perp => .scalar (Zr * kappa_perp)
    | .cross => .scalar (Zr * kappa_cross)
    | .all => .triple (Zr * kappa_par) (Zr * kappa_perp) (Zr * kappa_cross))

/-- nondim_resist_ji_held: Ji-Held resistivity. -/
def nondim_resist_ji_held (hall : ℝ) (Z : ℚ) (field_orientation : FieldOrientation) :
    Except String NDResult :=
  (check_Z ji_held_allowed_Z (.fin Z)).map (fun Z_idx =>
    let Zr : ℝ := (Z : ℝ)
    let r := |Zr * hall|
    let f_alpha_par_e : ℝ → ℝ := fun Z =>
      1 - Z ^ ((2 : ℝ) / 3) /
        (1.46 * Z ^ ((2 : ℝ) / 3) - 0.330 * Z ^ ((1 : ℝ) / 3) + 0.888)
    let f_alpha_0 : ℝ → ℝ := fun Z =>
      0.623 * Z ^ ((5 : ℝ) / 3) - 2.61 * Z ^ ((4 : ℝ) / 3) + 3.56 * Z + 0.557
    let f_alpha_1 : ℝ → ℝ := fun Z =>
      2.24 * Z ^ ((2 : ℝ) / 3) - 1.11 * Z ^ ((1 : ℝ) / 3) + 1.84
    let f_alpha_2 : ℝ → ℝ := fun Z => -0.0983 * Z ^ ((1 : ℝ) / 3) + 0.0176
    let f_a_0 : ℝ → ℝ := fun Z =>
      0.0759 * Z ^ ((8 : ℝ) / 3) + 0.897 * Z ^ 2 + 2.06 * Z + 1.06
    let f_a_1 : ℝ → ℝ := fun Z => 2.18 * Z ^ ((5 : ℝ) / 3) + 5.31 * Z + 3.73
    let f_a_2 : ℝ → ℝ := fun Z => 7.41 * Z + 1.11 * Z ^ ((2 : ℝ) / 3) - 1.17
    let f_a_3 : ℝ → ℝ := fun Z =>
      3.89 * Z ^ ((2 : ℝ) / 3) - 4.51 * Z ^ ((1 : ℝ) / 3) + 6.76
    let f_a_4 : ℝ → ℝ := fun Z => 2.26 * Z ^ ((1 : ℝ) / 3) + 0.281
    let f_a_5 : ℝ → ℝ := fun Z =>
      1.18 * Z ^ ((5 : ℝ) / 3) - 1.03 * Z ^ ((4 : ℝ) / 3) + 3.60 * Z + 1.32
    let alpha_par_e : List ℝ := [0.504, 0.431, f_alpha_par_e Zr]
    let alpha_0 : List ℝ := [2.130, 3.078, f_alpha_0 Zr]
    let alpha_1 : List ℝ := [2.970, 3.997, f_alpha_1 Zr]
    let alpha_2 : List ℝ := [-0.081, -0.106, f_alpha_2 Zr]
    let a_0 : List ℝ := [4.093, 9.250, f_a_0 Zr]
    let a_1 : List ℝ := [11.22, 21.27, f_a_1 Zr]
    let a_2 : List ℝ := [7.350, 15.41, f_a_2 Zr]
    let a_3 : List ℝ := [6.140, 7.253, f_a_3 Zr]
    let a_4 : List ℝ := [2.541, 3.128, f_a_4 Zr]
    let a_5 : List ℝ := [5.070, 9.671, f_a_5 Zr]
    let alpha_par := alpha_par_e.getD Z_idx 0
    let alpha_perp :=
      1 - (1.46 * Zr ^ ((2 : ℝ) / 3) * r + alpha_0.getD Z_idx 0 * (1 - alpha_par_e.getD Z_idx 0)) /
        (r ^ ((5 : ℝ) / 3) + alpha_2.getD Z_idx 0 * r ^ ((4 : ℝ) / 3) +
          alpha_1.getD Z_idx 0 * r + alpha_0.getD Z_idx 0)
    let alpha_cross :=
      (Zr ^ ((2 : ℝ) / 3) * r * (2.53 * r + a_0.getD Z_idx 0 / a_5.getD Z_idx 0)) /
        (r ^ ((8 : ℝ) / 3) + a_4.getD Z_idx 0 * r ^ ((7 : ℝ) / 3) + a_3.getD Z_idx 0 * r ^ 2 +
          a_2.getD Z_idx 0 * r ^ ((5 : ℝ) / 3) + a_1.getD Z_idx 0 * r + a_0.getD Z_idx 0)
    match field_orientation with
    | .parallel | .par => .scalar alpha_par
    | .perpendicular | .perp => .scalar alpha_perp
    | .cross => .scalar alpha_cross
    | .all => .triple alpha_par alpha_perp alpha_cross)

/-- nondim_tec_ji_held: Ji-Held thermoelectric conductivity. -/
def nondim_tec_ji_held (hall : ℝ) (Z : ℚ) (field_orientation : FieldOrientation) :
    Except String NDResult :=
  (check_Z ji_held_allowed_Z (.fin Z)).map (fun Z_idx =>
    let Zr : ℝ := (Z : ℝ)
    let r := |Zr * hall|
    let f_beta_par_e : ℝ → ℝ := fun Z =>
      Z ^ ((5 : ℝ) / 3) /
        (0.693 * Z ^ ((5 : ℝ) / 3) - 0.279 * Z ^ ((4 : ℝ) / 3) + Z + 0.01)
    let f_beta_0 : ℝ → ℝ := fun Z =>
      0.156 * Z ^ ((8 : ℝ) / 3) + 0.994 * Z ^ 2 + 3.21 * Z - 0.84
    let f_beta_1 : ℝ → ℝ := fun Z => 3.69 * Z ^ ((5 : ℝ) / 3) + 3.77 * Z + 0.77
    let f_beta_2 : ℝ → ℝ := fun Z =>
      9.43 * Z + 4.22 * Z ^ ((2 : ℝ) / 3) - 12.9 * Z ^ ((1 : ℝ) / 3) + 4.56
    let f_beta_3 : ℝ → ℝ := fun Z =>
      2.70 * Z ^ ((2 : ℝ) / 3) + 1.46 * Z ^ ((1 : ℝ) / 3) - 0.17
    let f_beta_4 : ℝ → ℝ := fun Z => 2.58 * Z ^ ((1 : ℝ) / 3) + 0.17
    let f_b_0 : ℝ → ℝ := fun Z =>
      (6.87 * Z ^ 3 + 78.2 * Z ^ 2 + 623 * Z + 366) / 1000
    let f_b_1 : ℝ → ℝ := fun Z => 0.134 * Z ^ 2 + 0.977 * Z + 0.17
    let f_b_2 : ℝ → ℝ := fun Z =>
      0.689 * Z ^ ((4 : ℝ) / 3) - 0.377 * Z ^ ((2 : ℝ) / 3) +
        3.94 * Z ^ ((1 : ℝ) / 3) + 0.644
    let f_b_3 : ℝ → ℝ := fun Z =>
      -0.109 * Z + 1.33 * Z ^ ((2 : ℝ) / 3) - 3.80 * Z ^ ((1 : ℝ) / 3) + 0.289
    let f_b_4 : ℝ → ℝ := fun Z => 2.46 * Z ^ ((2 : ℝ) / 3) + 0.522
    let f_b_5 : ℝ → ℝ := fun Z =>
      0.102 * Z ^ 2 + 0.746 * Z + 0.072 * Z ^ ((1 : ℝ) / 3) + 0.211
    let beta_par_e : List ℝ := [0.702, 0.905, f_beta_par_e Zr]
    let beta_0 : List ℝ := [3.520, 10.55, f_beta_0 Zr]
    let beta_1 : List ℝ := [8.230, 20.03, f_beta_1 Zr]
    let beta_2 : List ℝ := [5.310, 13.87, f_beta_2 Zr]
    let beta_3 : List ℝ := [3.990, 5.955, f_beta_3 Zr]
    let beta_4 : List ℝ := [2.750, 3.421, f_beta_4 Zr]
    let b_0 : List ℝ := [1.074, 1.980, f_b_0 Zr]
    let b_1 : List ℝ := [1.281, 2.660, f_b_1 Zr]
    let b_2 : List ℝ := [4.896, 6.746, f_b_2 Zr]
    let b_3 : List ℝ := [-2.290, -2.605, f_b_3 Zr]
    let b_4 : List ℝ := [2.982, 4.427, f_b_4 Zr]
    let b_5 : List ℝ := [1.131, 2.202, f_b_5 Zr]
    let beta_par := beta_par_e.getD Z_idx 0
    let beta_perp :=
      (6.33 * Zr ^ ((5 : ℝ) / 3) * r + beta_0.getD Z_idx 0 * beta_par_e.getD Z_idx 0) /
        (r ^ ((8 : ℝ) / 3) + beta_4.getD Z_idx 0 * r ^ ((7 : ℝ) / 3) +
          beta_3.getD Z_idx 0 * r ^ 2 + beta_2.getD Z_idx 0 * r ^ ((5 : ℝ) / 3) +
          beta_1.getD Z_idx 0 * r + beta_0.getD Z_idx 0)
    let beta_cross :=
      (Zr * r * (3 / 2 * r + b_0.getD Z_idx 0 / b_5.getD Z_idx 0)) /
        (r ^ 3 + b_4.getD Z_idx 0 * r ^ ((7 : ℝ) / 3) + b_3.getD Z_idx 0 * r ^ 2 +
          b_2.getD Z_idx 0 * r ^ ((5 : ℝ) / 3) + b_1.getD Z_idx 0 * r + b_0.getD Z_idx 0)
    match field_orientation with
    | .parallel | .par => .scalar beta_par
    | .perpendicular | .perp => .scalar beta_perp
    | .cross => .scalar beta_cross
    | .all => .triple beta_par beta_perp beta_cross)

/-- nondim_visc_e_ji_held: Ji-Held electron viscosity, 5 components. -/
def nondim_visc_e_ji_held (hall : ℝ) (Z : ℚ) : Except String NDResult :=
  (check_Z ji_held_allowed_Z (.fin Z)).map (fun Z_idx =>
    let Zr : ℝ := (Z : ℝ)
    let r := |Zr * hall|
    let f_eta_0_e : ℝ → ℝ := fun Z =>
      1 / (0.55 * Z + 0.083 * Z ^ ((1 : ℝ) / 3) + 0.732)
    let f_hprime_0 : ℝ → ℝ := fun Z =>
      0.0699 * Z ^ 3 + 0.558 * Z ^ 2 + 1.66 * Z + 1.06
    let f_hprime_1 : ℝ → ℝ := fun Z => 0.657 * Z ^ 2 + 1.42 * Z + 0.416
    let f_hprime_2 : ℝ → ℝ := fun Z =>
      -0.369 * Z ^ ((4 : ℝ) / 3) + 0.379 * Z + 0.339 * Z ^ ((1 : ℝ) / 3) + 2.17
    let f_hprime_3 : ℝ → ℝ := fun Z =>
      2.16 * Z - 0.657 * Z ^ ((1 : ℝ) / 3) + 0.0347
    let f_hprime_4 : ℝ → ℝ := fun Z =>
      -0.0703 * Z ^ ((2 : ℝ) / 3) - 0.224 * Z ^ ((1 : ℝ) / 3) + 0.333
    let f_h_0 : ℝ → ℝ := fun Z =>
      0.0473 * Z ^ 3 + 0.323 * Z ^ 2 + 0.951 * Z + 0.407
    let f_h_1 : ℝ → ℝ := fun Z => 0.171 * Z ^ 2 + 0.523 * Z + 0.336
    let f_h_2 : ℝ → ℝ := fun Z =>
      0.362 * Z ^ ((4 : ℝ) / 3) + 0.178 * Z + 1.06 * Z ^ ((1 : ℝ) / 3) + 1.26
    let f_h_3 : ℝ → ℝ := fun Z =>
      0.599 * Z + 0.106 * Z ^ ((2 : ℝ) / 3) - 0.444 * Z ^ ((1 : ℝ) / 3) - 0.161
    let f_h_4 : ℝ → ℝ := fun Z =>
      -0.16 * Z ^ ((2 : ℝ) / 3) + 0.06 * Z ^ ((1 : ℝ) / 3) + 0.232
    let f_h_5 : ℝ → ℝ := fun Z =>
      0.183 * Z ^ 2 + 0.714 * Z + 0.0375 * Z ^ ((1 : ℝ) / 3) + 0.47
    let eta_0_e : List ℝ := [0.733, 0.516, f_eta_0_e Zr]
    let hprime_0 : List ℝ := [3.348, 7.171, f_hprime_0 Zr]
    let hprime_1 : List ℝ := [2.493, 5.884, f_hprime_1 Zr]
    let hprime_2 : List ℝ := [2.519, 2.425, f_hprime_2 Zr]
    let hprime_3 : List ℝ := [1.538, 3.527, f_hprime_3 Zr]
    let hprime_4 : List ℝ := [0.039, -0.061, f_hprime_4 Zr]
    let h_0 : List ℝ := [1.728, 3.979, f_h_0 Zr]
    let h_1 : List ℝ := [1.030, 2.066, f_h_1 Zr]
    let h_2 : List ℝ := [2.860, 3.864, f_h_2 Zr]
    let h_3 : List ℝ := [0.100, 0.646, f_h_3 Zr]
    let h_4 : List ℝ := [0.132, 0.054, f_h_4 Zr]
    let h_5 : List ℝ := [1.405, 2.677, f_h_5 Zr]
    let eta_0 := eta_0_e.getD Z_idx 0
    let f_eta_2 : ℝ → ℝ := fun r =>
      ((6 / 5 * Zr + 3 / 5 * Real.sqrt 2) * r + hprime_0.getD Z_idx 0 * eta_0_e.getD Z_idx 0) /
        (r ^ 3 + hprime_4.getD Z_idx 0 * r ^ ((7 : ℝ) / 3) + hprime_3.getD Z_idx 0 * r ^ 2 +
          hprime_2.getD Z_idx 0 * r ^ ((5 : ℝ) / 3) + hprime_1.getD Z_idx 0 * r +
          hprime_0.getD Z_idx 0)
    let eta_2 := f_eta_2 r
    let eta_1 := f_eta_2 (2 * r)
    let f_eta_4 : ℝ → ℝ := fun r =>
      (r * (r + h_0.getD Z_idx 0 / h_5.getD Z_idx 0)) /
        (r ^ 3 + h_4.getD Z_idx 0 * r ^ ((7 : ℝ) / 3) + h_3.getD Z_idx 0 * r ^ 2 +
          h_2.getD Z_idx 0 * r ^ ((5 : ℝ) / 3) + h_1.getD Z_idx 0 * r + h_0.getD Z_idx 0)
    let eta_4 := f_eta_4 r
    let eta_3 := f_eta_4 (2 * r)
    .quint eta_0 eta_1 eta_2 eta_3 eta_4)

/-- nondim_tc_i_ji_held: Ji-Held ion thermal conductivity.  The source
hardcodes the 3x3-moment closure (K = 3); the K = 2 branch is dead code
and only the K = 3 formulas are modelled. -/
def nondim_tc_i_ji_held (hall : ℝ) (Z : ℚ) (mu theta : ℝ)
    (field_orientation : FieldOrientation) : NDResult :=
  let zeta := 1 / (Z : ℝ) * Real.sqrt (mu / theta)
  let r := |hall / Real.sqrt 2|
  let Delta_par_i1 := 1 + 26.90 * zeta + 187.5 * zeta ^ 2 + 346.9 * zeta ^ 3
  let kappa_par_i := (5.586 + 101.7 * zeta + 289.1 * zeta ^ 2) / Delta_par_i1
  let Delta_perp_i1 := r ^ 6 +
    (3.635 + 29.15 * zeta + 83 * zeta ^ 2) * r ^ 4 +
    (1.395 + 35.64 * zeta + 344.9 * zeta ^ 2 + 1345 * zeta ^ 3 + 1891 * zeta ^ 4) * r ^ 2 +
    0.09163 * Delta_par_i1 ^ 2
  let kappa_perp_i := ((Real.sqrt 2 + 15 / 2 * zeta) * r ^ 4 +
      (3.841 + 57.59 * zeta + 297.8 * zeta ^ 2 + 555 * zeta ^ 3) * r ^ 2 +
      0.09163 * kappa_par_i * Delta_par_i1 ^ 2) / Delta_perp_i1
  let kappa_cross_i := r * (5 / 2 * r ^ 4 +
      (7.963 + 64.40 * zeta + 185 * zeta ^ 2) * r ^ 2 +
      1.344 + 44.54 * zeta + 511.9 * zeta ^ 2 + 2155 * zeta ^ 3 + 3063 * zeta ^ 4) /
    Delta_perp_i1
  match field_orientation with
  | .parallel | .par => .scalar (kappa_par_i / Real.sqrt 2)
  | .perpendicular | .perp => .scalar (kappa_perp_i / Real.sqrt 2)
  | .cross => .scalar (kappa_cross_i / Real.sqrt 2)
  | .all =>
    .triple (kappa_par_i / Real.sqrt 2) (kappa_perp_i / Real.sqrt 2)
      (kappa_cross_i / Real.sqrt 2)

/-- nondim_visc_i_ji_held: Ji-Held ion viscosity, 5 components.  As in
nondim_tc_i_ji_held only the hardcoded K = 3 closure is modelled. -/
def nondim_visc_i_ji_held (hall : ℝ) (Z : ℚ) (mu theta : ℝ) : NDResult :=
  let zeta := 1 / (Z : ℝ) * Real.sqrt (mu / theta)
  let r := |hall / Real.sqrt 2|
  let r13 := 2 * r
  let Delta_par_i2 := 1 + 15.79 * zeta + 63.92 * zeta ^ 2 + 71.69 * zeta ^ 3
  let Delta_perp_i2 := r ^ 6 +
    (4.391 + 26.69 * zeta + 56 * zeta ^ 2) * r ^ 4 +
    (3.191 + 49.62 * zeta + 306.4 * zeta ^ 2 + 808.1 * zeta ^ 3 + 784 * zeta ^ 4) * r ^ 2 +
    0.4483 * Delta_par_i2 ^ 2
  let eta_0_i := (1.365 + 16.75 * zeta + 35.84 * zeta ^ 2) / Delta_par_i2
  let eta_2_i := ((3 / 5 * Real.sqrt 2 + 2 * zeta) * r ^ 4 +
      (2.680 + 25.98 * zeta + 90.71 * zeta ^ 2 + 104 * zeta ^ 3) * r ^ 2 +
      0.4483 * eta_0_i * Delta_par_i2 ^ 2) / Delta_perp_i2
  let eta_1_i := ((3 / 5 * Real.sqrt 2 + 2 * zeta) * r13 ^ 4 +
      (2.680 + 25.98 * zeta + 90.71 * zeta ^ 2 + 104 * zeta ^ 3) * r13 ^ 2 +
      0.4483 * eta_0_i * Delta_par_i2 ^ 2) / Delta_perp_i2
  let eta_4_i := r * (r ^ 4 +
      (3.535 + 23.30 * zeta + 52 * zeta ^ 2) * r ^ 2 +
      0.9538 + 21.81 * zeta + 174.2 * zeta ^ 2 + 538.4 * zeta ^ 3 + 576 * zeta ^ 4) /
    Delta_perp_i2
  let eta_3_i := r13 * (r13 ^ 4 +
      (3.535 + 23.30 * zeta + 52 * zeta ^ 2) * r13 ^ 2 +
      0.9538 + 21.81 * zeta + 174.2 * zeta ^ 2 + 538.4 * zeta ^ 3 + 576 * zeta ^ 4) /
    Delta_perp_i2
  .quint (eta_0_i / Real.sqrt 2) (eta_1_i / Real.sqrt 2) (eta_2_i / Real.sqrt 2)
    (eta_3_i / Real.sqrt 2) (eta_4_i / Real.sqrt 2)

end

noncomputable section

/-- nondim_thermal_conductivity: dispatch on species branch and model
name.  The _is_electron collaborator from the atomic package is
abstracted into the Boolean argument; unmatched model names fall
through to the placeholder value 1 (a TODO in the source).  The charge
state is passed as a finite rational, embedded into the extended table
domain where a table lookup is involved. -/
def nondim_thermal_conductivity (hall : ℝ) (Z : ℚ) (is_electron : Bool)
    (model : String) (field_orientation : FieldOrientation) (mu theta : ℝ) :
    Except String NDResult :=
  if is_electron then
    if model = "spitzer-harm" ∨ model = "spitzer" then
      (nondim_tc_e_spitzer (.fin Z)).map .scalar
    else if model = "braginskii" then
      nondim_tc_e_braginskii hall (.fin Z) field_orientation
    else if model = "ji-held" then
      nondim_tc_e_ji_held hall Z field_orientation
    else
      .ok (.scalar 1)
  else
    if model = "braginskii" then
      .ok (nondim_tc_i_braginskii hall field_orientation)
    else if model = "ji-held" then
      .ok (nondim_tc_i_ji_held hall Z mu theta field_orientation)
    else
      .ok (.scalar 1)

/-- nondim_viscosity: dispatch for the 5-component viscosity.  The
field_orientation argument is accepted and ignored, as in the source. -/
def nondim_viscosity (hall : ℝ) (Z : ℚ) (is_electron : Bool) (model : String)
    (field_orientation : FieldOrientation) (mu theta : ℝ) : Except String NDResult :=
  if is_electron then
    if model = "braginskii" then
      nondim_visc_e_braginskii hall (.fin Z)
    else if model = "ji-held" then
      nondim_visc_e_ji_held hall Z
    else
      .ok (.scalar 1)
  else
    if model = "braginskii" then
      .ok (nondim_visc_i_braginskii hall)
    else if model = "ji-held" then
      .ok (nondim_visc_i_ji_held hall Z mu theta)
    else
      .ok (.scalar 1)

/-- nondim_resisitivity (spelling as in the source): dispatch for the
resistivity; no species branch. -/
def nondim_resisitivity (hall : ℝ) (Z : ℚ) (is_electron : Bool) (model : String)
    (field_orientation : FieldOrientation) : Except String NDResult :=
  if model = "spitzer-harm" ∨ model = "spitzer" then
    (nondim_resist_spitzer (.fin Z)).map .scalar
  else if model = "braginskii" then
    nondim_resist_braginskii hall (.fin Z) field_orientation
  else if model = "ji-held" then
    nondim_resist_ji_held hall Z field_orientation
  else
    .ok (.scalar 1)

/-- nondim_te_conductivity: dispatch for the thermoelectric
conductivity; no species branch. -/
def nondim_te_conductivity (hall : ℝ) (Z : ℚ) (is_electron : Bool) (model : String)
    (field_orientation : FieldOrientation) : Except String NDResult :=
  if model = "spitzer-harm" ∨ model = "spitzer" then
    (nondim_tec_spitzer (.fin Z)).map .scalar
  else if model = "braginskii" then
    nondim_tec_braginskii hall (.fin Z) field_orientation
  else if model = "ji-held" then
    nondim_tec_ji_held hall Z field_orientation
  else
    .ok (.scalar 1)

/-- Coulomb_logarithm.  The atomic-database resolution of the two
particle masses and absolute charge states is abstracted into the
(m1, m2, cs1, cs2) parameters (the source multiplies the charge state
by e and takes the absolute value, modelled here); debye_length is the
external Debye-length primitive; T is taken already converted to
kelvin (unit handling is out of scope); the non-fatal relativistic
warning is peripheral and not modelled.  The elementwise loop choosing
the larger of the two inner impact parameters is modelled at a single
element. -/
def Coulomb_logarithm (debye_length : ℝ → ℝ → ℝ) (m1 m2 cs1 cs2 : ℝ)
    (T n_e : ℝ) (V : Option ℝ) : ℝ :=
  let q1 := |e_charge * cs1|
  let q2 := |e_charge * cs2|
  let reduced_mass := m1 * m2 / (m1 + m2)
  let b_max := debye_length T n_e
  let V0 := match V with
    | none => Real.sqrt (3 * k_B * T / reduced_mass)
    | some v => v
  let b_perp := q1 * q2 / (4 * np_pi * eps0 * reduced_mass * V0 ^ 2)
  let b_deBroglie := hbar / (2 * reduced_mass * V0)
  let b_min := if b_perp > b_deBroglie then b_perp else b_deBroglie
  Real.log (b_max / b_min)

/-- ion_viscosity, dimensionalization part.  The resolved
nondimensional components (produced by nondim_viscosity in the source)
and the collision time tau_i (reciprocal of the external
ion_ion_collision_rate) are taken as inputs; unit bookkeeping is out
of scope.  np.isclose(hall_i, 0, rtol=1e-8) evaluates to
abs(hall_i - 0) <= atol + rtol * abs(0) with default atol = 1e-8,
modelled by the guard below. -/
def ion_viscosity (eta_hat_0 eta_hat_1 eta_hat_2 eta_hat_3 eta_hat_4 : ℝ)
    (n_i T_i tau_i hall_i : ℝ) : ℝ × ℝ × ℝ × ℝ × ℝ :=
  if |hall_i - 0| ≤ 1e-8 then
    (eta_hat_0 * (n_i * k_B * T_i * tau_i),
     eta_hat_1 * (n_i * k_B * T_i * tau_i),
     eta_hat_2 * (n_i * k_B * T_i * tau_i),
     eta_hat_3 * (n_i * k_B * T_i * tau_i),
     eta_hat_4 * (n_i * k_B * T_i * tau_i))
  else
    (eta_hat_0 * (n_i * k_B * T_i * tau_i),
     eta_hat_1 * (n_i * k_B * T_i * tau_i) / hall_i ^ 2,
     eta_hat_2 * (n_i * k_B * T_i * tau_i) / hall_i ^ 2,
     eta_hat_3 * (n_i * k_B * T_i * tau_i) / hall_i,
     eta_hat_4 * (n_i * k_B * T_i * tau_i) / hall_i)

/-- electron_viscosity, dimensionalization part; same structure as
ion_viscosity with the electron quantities. -/
def electron_viscosity (eta_hat_0 eta_hat_1 eta_hat_2 eta_hat_3 eta_hat_4 : ℝ)
    (n_e T_e tau_e hall_e : ℝ) : ℝ × ℝ × ℝ × ℝ × ℝ :=
  if |hall_e - 0| ≤ 1e-8 then
    (eta_hat_0 * (n_e * k_B * T_e * tau_e),
     eta_hat_1 * (n_e * k_B * T_e * tau_e),
     eta_hat_2 * (n_e * k_B * T_e * tau_e),
     eta_hat_3 * (n_e * k_B * T_e * tau_e),
     eta_hat_4 * (n_e * k_B * T_e * tau_e))
  else
    (eta_hat_0 * (n_e * k_B * T_e * tau_e),
     eta_hat_1 * (n_e * k_B * T_e * tau_e) / hall_e ^ 2,
     eta_hat_2 * (n_e * k_B * T_e * tau_e) / hall_e ^ 2,
     eta_hat_3 * (n_e * k_B * T_e * tau_e) / hall_e,
     eta_hat_4 * (n_e * k_B * T_e * tau_e) / hall_e)

end

deriving instance DecidableEq for Except

/-- Lowercasing of an argument string, as str.lower acts on the ASCII
names used by classical_transport: each character is lowercased. -/
def str_lower (s : String) : String := ⟨s.data.map Char.toLower⟩

/-- Observable events of a classical_transport run: Coulomb-logarithm
computations, the strong-coupling warnings, and the invocation of a
per-coefficient transport evaluator in the final dispatch loop. -/
inductive Event where
  | computeCoulombEi
  | computeCoulombIi
  | warnCoulombEi (v : ℚ)
  | warnCoulombIi (v : ℚ)
  | callEvaluator (coeff : String)
deriving DecidableEq

/-- The external collaborators of classical_transport: the atomic
database (ion_mass, charge_state), the Coulomb-logarithm function
(arguments: temperature, density, the two particle strings and the
optional relative velocity), the Hall-parameter primitive (density,
temperature, field, the two particle strings, the resolved Coulomb
logarithm, optional velocity) and the per-coefficient dimensional
evaluators invoked in the dispatch loop (abstracted over the
argument-dictionary contents). -/
structure Collaborators where
  ion_mass : String → Option ℚ
  charge_state : String → Option ZVal
  coulomb_log : ℚ → ℚ → String → String → Option ℚ → ℚ
  hall_param : ℚ → ℚ → ℚ → String → String → ℚ → Option ℚ → ℚ
  eval_coeff : String → ℚ

/-- The tuple returned by classical_transport: the computed transport
coefficients in request order and the four resolved scalars. -/
structure CTOut where
  transport_coeffs : List ℚ
  hall_e : ℚ
  hall_i : ℚ
  coulomb_log_ei : ℚ
  coulomb_log_ii : ℚ
deriving DecidableEq

/-- Negativity test for a charge state (np.inf is not negative). -/
def ZVal.isNeg : ZVal → Bool
  | .fin q => decide (q < 0)
  | .inf => false

/-- The valid_coeffs list of classical_transport. -/
def valid_coeffs : List String :=
  ["resistivity",
   "thermoelectric_conductivity",
   "ion_thermal_conductivity",
   "electron_thermal_conductivity",
   "ion_viscosity",
   "electron_viscosity"]

/-- The valid_models list of classical_transport. -/
def valid_models : List String :=
  ["braginskii",
   "spitzer",
   "spitzer-harm",
   "ji-held"]

/-- The valid_fields list of classical_transport. -/
def valid_fields : List String :=
  ["parallel", "par",
   "perpendicular", "perp",
   "cross",
   "all"]

/-- Resolution of the ion charge state in classical_transport: an
explicit override must be non-negative; otherwise the charge_state
collaborator is consulted and its failure is surfaced as an input
error. -/
def resolve_Z (C : Collaborators) (Z : Option ZVal) (ion_particle : String) :
    Except String ZVal :=
  match Z with
  | none =>
    match C.charge_state ion_particle with
    | none =>
      .error ("Unable to find charge of particle: " ++ ion_particle ++
        " in classical_transport.")
    | some z => .ok z
  | some z =>
    if z.isNeg then .error ("Z not allowed to be negative") else .ok z

/-- classical_transport, the orchestrator.  Returned are, in order: the
final state of the coeffs list (the source lowercases the elements of
the passed-in list in place, so the caller observes this list after the
call), the event trace, and the result (error or output tuple).
Temperatures and densities are taken already in canonical units (unit
conversion and the dimension-checking decorator are out of scope); the
per-coefficient argument dictionaries and the Ji-Held mu/theta
defaulting only feed the abstracted eval_coeff collaborator and carry
no observable behavior in this model. -/
def classical_transport (C : Collaborators) (coeffs : List String)
    (T_e n_e T_i n_i : ℚ) (ion_particle : String) (Z : Option ZVal) (B : ℚ)
    (model field_orientation : String)
    (coulomb_log_ei V_ei coulomb_log_ii V_ii hall_e hall_i : Option ℚ) :
    List String × List Event × Except String CTOut :=
  let coeffs := coeffs.map str_lower
  let model := str_lower model
  let field_orientation := str_lower field_orientation
  (coeffs,
    match coeffs.find? (fun c => !(valid_coeffs.contains c)) with
    | some c => ([], .error ("Unknown transport coefficient " ++ c))
    | none =>
      if !(valid_models.contains model) then
        ([], .error ("Unknown transport model " ++ model))
      else if !(valid_fields.contains field_orientation) then
        ([], .error ("Unknown field orientation " ++ field_orientation))
      else
        match C.ion_mass ion_particle with
        | none =>
          ([], .error ("Unable to find mass of particle: " ++ ion_particle ++
            " in classical_transport."))
        | some _m_i =>
          match resolve_Z C Z ion_particle with
          | .error e => ([], .error e)
          | .ok _Zval =>
            let e_particle := "e"
            let eiPair :=
              match coulomb_log_ei with
              | none =>
                ([Event.computeCoulombEi],
                  C.coulomb_log T_e n_e e_particle ion_particle V_ei)
              | some v => ([], v)
            let cl_ei := eiPair.2
            let ev_ei := if cl_ei < 4 then eiPair.1 ++ [Event.warnCoulombEi cl_ei]
              else eiPair.1
            if cl_ei < 1 then
              (ev_ei, .error ("coulomb_log_ei is " ++ toString cl_ei ++ ", less than 1"))
            else
              let iiPair :=
                match coulomb_log_ii with
                | none =>
                  ([Event.computeCoulombIi],
                    C.coulomb_log T_i n_e ion_particle ion_particle V_ii)
                | some v => ([], v)
              let cl_ii := iiPair.2
              let ev_ii := if cl_ii < 4 then iiPair.1 ++ [Event.warnCoulombIi cl_ii]
                else iiPair.1
              if cl_ii < 1 then
                (ev_ei ++ ev_ii,
                  .error ("coulomb_log_ii is " ++ toString cl_ii ++ ", less than 1"))
              else
                let hall_e := match hall_e with
                  | none => C.hall_param n_e T_e B e_particle ion_particle cl_ei V_ei
                  | some v => v
                let hall_i := match hall_i with
                  | none => C.hall_param n_i T_i B ion_particle ion_particle cl_ii V_ii
                  | some v => v
                let transport_coeffs := coeffs.map C.eval_coeff
                (ev_ei ++ ev_ii ++ coeffs.map Event.callEvaluator,
                  .ok ⟨transport_coeffs, hall_e, hall_i, cl_ei, cl_ii⟩))

/-- A concrete collaborator bundle for the closed witness runs: unit
ion mass, charge state 1, Coulomb logarithm 10, Hall parameter 0,
evaluator value 0. -/
def witness_collab : Collaborators :=
  ⟨fun _ => some 1, fun _ => some (.fin 1), fun _ _ _ _ _ => 10,
   fun _ _ _ _ _ _ _ => 0, fun _ => 0⟩
theorem lastMatchIdx_eq_none {p : ZEntry → Bool} :
    ∀ (l : List ZEntry) (i₀ : ℕ) (acc : Option ℕ),
      lastMatchIdx p i₀ acc l = none ↔ (acc = none ∧ ∀ x ∈ l, p x = false) := by
  intro l
  induction l with
  | nil => intro i₀ acc; simp [lastMatchIdx]
  | cons v rest ih =>
    intro i₀ acc
    simp only [lastMatchIdx]
    rw [ih]
    by_cases hv : p v
    · simp [hv]
    · rw [if_neg hv]
      constructor
      · rintro ⟨h1, h2⟩
        refine ⟨h1, ?_⟩
        intro x hx
        rcases List.mem_cons.mp hx with h | h
        · subst h; exact Bool.eq_false_iff.mpr hv
        · exact h2 x h
      · rintro ⟨h1, h2⟩
        exact ⟨h1, fun x hx => h2 x (List.mem_cons_of_mem _ hx)⟩

theorem lastMatchIdx_eq_some {p : ZEntry → Bool} :
    ∀ (l : List ZEntry) (i₀ : ℕ) (acc : Option ℕ) (j : ℕ),
      lastMatchIdx p i₀ acc l = some j →
      (acc = some j ∧ ∀ x ∈ l, p x = false) ∨
        ∃ k, ∃ h : k < l.length, j = i₀ + k ∧ p (l.get ⟨k, h⟩) = true := by
  intro l
  induction l with
  | nil =>
    intro i₀ acc j h
    exact Or.inl ⟨h, by simp⟩
  | cons v rest ih =>
    intro i₀ acc j h
    simp only [lastMatchIdx] at h
    rcases ih (i₀ + 1) (if p v then some i₀ else acc) j h with ⟨hacc, hall⟩ | ⟨k, hk, hj, hp⟩
    · by_cases hv : p v
      · rw [if_pos hv] at hacc
        obtain rfl : i₀ = j := by simpa using hacc
        exact Or.inr ⟨0, by simp, by simp, by simpa using hv⟩
      · rw [if_neg hv] at hacc
        refine Or.inl ⟨hacc, ?_⟩
        intro x hx
        rcases List.mem_cons.mp hx with h | h
        · subst h; simpa using hv
        · exact hall x h
    · refine Or.inr ⟨k + 1, by simpa using Nat.succ_lt_succ hk, ?_, ?_⟩
      · omega
      · simpa using hp

theorem list_getD_eq_get {α : Type} :
    ∀ (l : List α) (n : ℕ) (h : n < l.length) (d : α), l.getD n d = l.get ⟨n, h⟩ := by
  intro l
  induction l with
  | nil => intro n h d; simp at h
  | cons v rest ih =>
    intro n h d
    cases n with
    | zero => simp [List.getD]
    | succ m =>
      simp only [List.getD, List.get] at *
      exact ih m (Nat.lt_of_succ_lt_succ h) d

theorem lastMatchIdx_of_mem {p : ZEntry → Bool} {l : List ZEntry} {x : ZEntry}
    (hx : x ∈ l) (hp : p x = true) :
    ∃ j, lastMatchIdx p 0 none l = some j ∧
      ∃ h : j < l.length, p (l.get ⟨j, h⟩) = true := by
  cases hres : lastMatchIdx p 0 none l with
  | none =>
    have := ((lastMatchIdx_eq_none l 0 none).mp hres).2 x hx
    rw [hp] at this
    cases this
  | some j =>
    rcases lastMatchIdx_eq_some l 0 none j hres with ⟨h1, _⟩ | ⟨k, hk, hj, hpk⟩
    · cases h1
    · refine ⟨j, rfl, ?_⟩
      have hj0 : j = k := by omega
      subst hj0
      exact ⟨hk, hpk⟩

theorem lastMatchIdx_of_not_mem {p : ZEntry → Bool} {l : List ZEntry}
    (hall : ∀ x ∈ l, p x = false) :
    lastMatchIdx p 0 none l = none :=
  (lastMatchIdx_eq_none l 0 none).mpr ⟨rfl, hall⟩

/-- C1: check_Z returns an index holding the exact match whenever Z
equals an entry of the allowed list; when no entry equals Z and the
arbitrary sentinel is present it returns an index holding that
sentinel; and when no entry equals Z and no sentinel is present it
raises a domain error naming the unavailable Z. -/
theorem check_Z_resolution (allowed_Z : List ZEntry) (Z : ZVal) :
    (ZEntry.num Z ∈ allowed_Z →
      (check_Z allowed_Z Z).map (fun j => allowed_Z.getD j ZEntry.arb) =
        .ok (ZEntry.num Z)) ∧
    (ZEntry.num Z ∉ allowed_Z → ZEntry.arb ∈ allowed_Z →
      (check_Z allowed_Z Z).map (fun j => allowed_Z.getD j (ZEntry.num Z)) =
        .ok ZEntry.arb) ∧
    (ZEntry.num Z ∉ allowed_Z → ZEntry.arb ∉ allowed_Z →
      check_Z allowed_Z Z =
        .error (zvalStr Z ++ " is not an available Z value in check_Z")) := by
  refine ⟨?_, ?_, ?_⟩
  · intro hmem
    obtain ⟨j, hres, hlt, hp⟩ :=
      lastMatchIdx_of_mem (p := fun v => v == ZEntry.num Z) hmem (by simp)
    simp only [check_Z, hres, Except.map]
    rw [list_getD_eq_get allowed_Z j hlt]
    exact congrArg Except.ok (beq_iff_eq.mp hp)
  · intro hnot harb
    have hz : lastMatchIdx (fun v => v == ZEntry.num Z) 0 none allowed_Z = none := by
      refine lastMatchIdx_of_not_mem ?_
      intro x hx
      simp only [beq_eq_false_iff_ne, ne_eq]
      rintro rfl
      exact hnot hx
    obtain ⟨a, hares, halt, hap⟩ :=
      lastMatchIdx_of_mem (p := fun v => v == ZEntry.arb) harb (by simp)
    simp only [check_Z, hz, hares, Except.map]
    rw [list_getD_eq_get allowed_Z a halt]
    exact congrArg Except.ok (beq_iff_eq.mp hap)
  · intro hnot harb
    have hz : lastMatchIdx (fun v => v == ZEntry.num Z) 0 none allowed_Z = none := by
      refine lastMatchIdx_of_not_mem ?_
      intro x hx
      simp only [beq_eq_false_iff_ne, ne_eq]
      rintro rfl
      exact hnot hx
    have ha : lastMatchIdx (fun v => v == ZEntry.arb) 0 none allowed_Z = none := by
      refine lastMatchIdx_of_not_mem ?_
      intro x hx
      simp only [beq_eq_false_iff_ne, ne_eq]
      rintro rfl
      exact harb hx
    simp only [check_Z, hz, ha]

/-- C1 witness: concrete runs of check_Z through each of the three
branches, on the Ji-Held style list with a sentinel and on a plain list
without one. -/
theorem check_Z_resolution_witness :
    ((check_Z [ZEntry.num (.fin 1), ZEntry.num (.fin 2), ZEntry.arb] (.fin 2)).map
        (fun j => [ZEntry.num (.fin 1), ZEntry.num (.fin 2), ZEntry.arb].getD j
          ZEntry.arb) = .ok (ZEntry.num (.fin 2))) ∧
    ((check_Z [ZEntry.num (.fin 1), ZEntry.num (.fin 2), ZEntry.arb] (.fin 7)).map
        (fun j => [ZEntry.num (.fin 1), ZEntry.num (.fin 2), ZEntry.arb].getD j
          (ZEntry.num (.fin 7))) = .ok ZEntry.arb) ∧
    (check_Z [ZEntry.num (.fin 1), ZEntry.num (.fin 2)] (.fin 7) =
      .error (zvalStr (.fin 7) ++ " is not an available Z value in check_Z")) :=
  ⟨(check_Z_resolution _ _).1 (by decide),
   (check_Z_resolution _ _).2.1 (by decide) (by decide),
   (check_Z_resolution _ _).2.2 (by decide) (by decide)⟩

/-- C2 (amended): for every table-resolved Z index, every Hall
parameter x and the shared quartic Delta = x^4 + delta_1 x^2 + delta_0
of the evaluator, the Braginskii electron thermal conductivity and
thermoelectric conductivity components are: parallel the Z-table value
(Hall-independent), perpendicular (c1prime x^2 + c0prime)/Delta, cross
(c1doubleprime x^3 + c0doubleprime x)/Delta.  The resistivity cross
component has the same form and its parallel component is the
Hall-independent table value 1 - alpha_0_prime/delta_0, but its
perpendicular component is the complement
1 - (alpha_1_prime x^2 + alpha_0_prime)/Delta rather than a plain
rational numerator over Delta. -/
theorem braginskii_component_forms (hall : ℝ) (Z : ZVal) (Z_idx : ℕ)
    (h : check_Z brag_allowed_Z Z = .ok Z_idx) :
    (nondim_tc_e_braginskii hall Z .parallel =
        .ok (.scalar (tce_gamma_0_prime.getD Z_idx 0 / tce_delta_0.getD Z_idx 0)) ∧
      nondim_tc_e_braginskii hall Z .perpendicular =
        .ok (.scalar ((tce_gamma_1_prime.getD Z_idx 0 * hall ^ 2 +
            tce_gamma_0_prime.getD Z_idx 0) /
          (hall ^ 4 + tce_delta_1.getD Z_idx 0 * hall ^ 2 + tce_delta_0.getD Z_idx 0))) ∧
      nondim_tc_e_braginskii hall Z .cross =
        .ok (.scalar ((tce_gamma_1_doubleprime.getD Z_idx 0 * hall ^ 3 +
            tce_gamma_0_doubleprime.getD Z_idx 0 * hall) /
          (hall ^ 4 + tce_delta_1.getD Z_idx 0 * hall ^ 2 + tce_delta_0.getD Z_idx 0)))) ∧
    (nondim_tec_braginskii hall Z .parallel =
        .ok (.scalar (tec_beta_0_prime.getD Z_idx 0 / tec_delta_0.getD Z_idx 0)) ∧
      nondim_tec_braginskii hall Z .perpendicular =
        .ok (.scalar ((tec_beta_1_prime.getD Z_idx 0 * hall ^ 2 +
            tec_beta_0_prime.getD Z_idx 0) /
          (hall ^ 4 + tec_delta_1.getD Z_idx 0 * hall ^ 2 + tec_delta_0.getD Z_idx 0))) ∧
      nondim_tec_braginskii hall Z .cross =
        .ok (.scalar ((tec_beta_1_doubleprime.getD Z_idx 0 * hall ^ 3 +
            tec_beta_0_doubleprime.getD Z_idx 0 * hall) /
          (hall ^ 4 + tec_delta_1.getD Z_idx 0 * hall ^ 2 + tec_delta_0.getD Z_idx 0)))) ∧
    (nondim_resist_braginskii hall Z .parallel =
        .ok (.scalar (1 - res_alpha_0_prime.getD Z_idx 0 / res_delta_0.getD Z_idx 0)) ∧
      nondim_resist_braginskii hall Z .perpendicular =
        .ok (.scalar (1 - (res_alpha_1_prime.getD Z_idx 0 * hall ^ 2 +
            res_alpha_0_prime.getD Z_idx 0) /
          (hall ^ 4 + res_delta_1.getD Z_idx 0 * hall ^ 2 + res_delta_0.getD Z_idx 0))) ∧
      nondim_resist_braginskii hall Z .cross =
        .ok (.scalar ((res_alpha_1_doubleprime.getD Z_idx 0 * hall ^ 3 +
            res_alpha_0_doubleprime.getD Z_idx 0 * hall) /
          (hall ^ 4 + res_delta_1.getD Z_idx 0 * hall ^ 2 + res_delta_0.getD Z_idx 0)))) := by
  refine ⟨⟨?_, ?_, ?_⟩, ⟨?_, ?_, ?_⟩, ⟨?_, ?_, ?_⟩⟩ <;>
    simp [nondim_tc_e_braginskii, nondim_tec_braginskii, nondim_resist_braginskii,
      h, Except.map]

/-- C2 witness: the component forms at Hall parameter 0 and Z = 1
(table index 0). -/
theorem braginskii_component_forms_witness :
    check_Z brag_allowed_Z (.fin 1) = .ok 0 ∧
    ((nondim_tc_e_braginskii 0 (.fin 1) .parallel =
        .ok (.scalar (tce_gamma_0_prime.getD 0 0 / tce_delta_0.getD 0 0)) ∧
      nondim_tc_e_braginskii 0 (.fin 1) .perpendicular =
        .ok (.scalar ((tce_gamma_1_prime.getD 0 0 * (0 : ℝ) ^ 2 +
            tce_gamma_0_prime.getD 0 0) /
          ((0 : ℝ) ^ 4 + tce_delta_1.getD 0 0 * (0 : ℝ) ^ 2 + tce_delta_0.getD 0 0))) ∧
      nondim_tc_e_braginskii 0 (.fin 1) .cross =
        .ok (.scalar ((tce_gamma_1_doubleprime.getD 0 0 * (0 : ℝ) ^ 3 +
            tce_gamma_0_doubleprime.getD 0 0 * (0 : ℝ)) /
          ((0 : ℝ) ^ 4 + tce_delta_1.getD 0 0 * (0 : ℝ) ^ 2 + tce_delta_0.getD 0 0)))) ∧
    (nondim_tec_braginskii 0 (.fin 1) .parallel =
        .ok (.scalar (tec_beta_0_prime.getD 0 0 / tec_delta_0.getD 0 0)) ∧
      nondim_tec_braginskii 0 (.fin 1) .perpendicular =
        .ok (.scalar ((tec_beta_1_prime.getD 0 0 * (0 : ℝ) ^ 2 +
            tec_beta_0_prime.getD 0 0) /
          ((0 : ℝ) ^ 4 + tec_delta_1.getD 0 0 * (0 : ℝ) ^ 2 + tec_delta_0.getD 0 0))) ∧
      nondim_tec_braginskii 0 (.fin 1) .cross =
        .ok (.scalar ((tec_beta_1_doubleprime.getD 0 0 * (0 : ℝ) ^ 3 +
            tec_beta_0_doubleprime.getD 0 0 * (0 : ℝ)) /
          ((0 : ℝ) ^ 4 + tec_delta_1.getD 0 0 * (0 : ℝ) ^ 2 + tec_delta_0.getD 0 0)))) ∧
    (nondim_resist_braginskii 0 (.fin 1) .parallel =
        .ok (.scalar (1 - res_alpha_0_prime.getD 0 0 / res_delta_0.getD 0 0)) ∧
      nondim_resist_braginskii 0 (.fin 1) .perpendicular =
        .ok (.scalar (1 - (res_alpha_1_prime.getD 0 0 * (0 : ℝ) ^ 2 +
            res_alpha_0_prime.getD 0 0) /
          ((0 : ℝ) ^ 4 + res_delta_1.getD 0 0 * (0 : ℝ) ^ 2 + res_delta_0.getD 0 0))) ∧
      nondim_resist_braginskii 0 (.fin 1) .cross =
        .ok (.scalar ((res_alpha_1_doubleprime.getD 0 0 * (0 : ℝ) ^ 3 +
            res_alpha_0_doubleprime.getD 0 0 * (0 : ℝ)) /
          ((0 : ℝ) ^ 4 + res_delta_1.getD 0 0 * (0 : ℝ) ^ 2 + res_delta_0.getD 0 0))))) :=
  ⟨rfl, braginskii_component_forms 0 (.fin 1) 0 rfl⟩

/-- C2 counterexample: at Hall parameter 1 and Z = 1 (table index 0)
the Braginskii resistivity perpendicular component is not the plain
rational (alpha_1_prime x^2 + alpha_0_prime)/Delta built from its table
row: the source returns the complement 1 minus that quantity. -/
theorem braginskii_resist_perp_counterexample :
    nondim_resist_braginskii 1 (.fin 1) .perpendicular ≠
      .ok (.scalar ((res_alpha_1_prime.getD 0 0 * (1 : ℝ) ^ 2 +
          res_alpha_0_prime.getD 0 0) /
        ((1 : ℝ) ^ 4 + res_delta_1.getD 0 0 * (1 : ℝ) ^ 2 + res_delta_0.getD 0 0))) := by
  have hz : check_Z brag_allowed_Z (.fin 1) = .ok 0 := rfl
  simp only [nondim_resist_braginskii, hz, Except.map, ne_eq, Except.ok.injEq]
  intro hEq
  have h2 := NDResult.scalar.inj hEq
  rw [res_alpha_1_prime, res_alpha_0_prime, res_delta_1, res_delta_0] at h2
  norm_num [List.getD] at h2

/-- C5 (amended): for every Braginskii and Ji-Held orientation-
dispatching evaluator, the all orientation returns the 3-array whose
elements equal the separately requested parallel, perpendicular and
cross results at the same inputs.  Under the Spitzer-Harm model (both
spellings) the dispatch functions ignore the orientation entirely and
return the same scalar for every orientation, including all. -/
theorem orientation_all_is_componentwise :
    (∀ (hall : ℝ) (Z : ZVal) (p q r : ℝ),
      nondim_tc_e_braginskii hall Z .all = .ok (.triple p q r) →
        nondim_tc_e_braginskii hall Z .parallel = .ok (.scalar p) ∧
        nondim_tc_e_braginskii hall Z .perpendicular = .ok (.scalar q) ∧
        nondim_tc_e_braginskii hall Z .cross = .ok (.scalar r)) ∧
    (∀ (hall : ℝ) (p q r : ℝ),
      nondim_tc_i_braginskii hall .all = .triple p q r →
        nondim_tc_i_braginskii hall .parallel = .scalar p ∧
        nondim_tc_i_braginskii hall .perpendicular = .scalar q ∧
        nondim_tc_i_braginskii hall .cross = .scalar r) ∧
    (∀ (hall : ℝ) (Z : ZVal) (p q r : ℝ),
      nondim_resist_braginskii hall Z .all = .ok (.triple p q r) →
        nondim_resist_braginskii hall Z .parallel = .ok (.scalar p) ∧
        nondim_resist_braginskii hall Z .perpendicular = .ok (.scalar q) ∧
        nondim_resist_braginskii hall Z .cross = .ok (.scalar r)) ∧
    (∀ (hall : ℝ) (Z : ZVal) (p q r : ℝ),
      nondim_tec_braginskii hall Z .all = .ok (.triple p q r) →
        nondim_tec_braginskii hall Z .parallel = .ok (.scalar p) ∧
        nondim_tec_braginskii hall Z .perpendicular = .ok (.scalar q) ∧
        nondim_tec_braginskii hall Z .cross = .ok (.scalar r)) ∧
    (∀ (hall : ℝ) (Z : ℚ) (p q r : ℝ),
      nondim_tc_e_ji_held hall Z .all = .ok (.triple p q r) →
        nondim_tc_e_ji_held hall Z .parallel = .ok (.scalar p) ∧
        nondim_tc_e_ji_held hall Z .perpendicular = .ok (.scalar q) ∧
        nondim_tc_e_ji_held hall Z .cross = .ok (.scalar r)) ∧
    (∀ (hall : ℝ) (Z : ℚ) (p q r : ℝ),
      nondim_resist_ji_held hall Z .all = .ok (.triple p q r) →
        nondim_resist_ji_held hall Z .parallel = .ok (.scalar p) ∧
        nondim_resist_ji_held hall Z .perpendicular = .ok (.scalar q) ∧
        nondim_resist_ji_held hall Z .cross = .ok (.scalar r)) ∧
    (∀ (hall : ℝ) (Z : ℚ) (p q r : ℝ),
      nondim_tec_ji_held hall Z .all = .ok (.triple p q r) →
        nondim_tec_ji_held hall Z .parallel = .ok (.scalar p) ∧
        nondim_tec_ji_held hall Z .perpendicular = .ok (.scalar q) ∧
        nondim_tec_ji_held hall Z .cross = .ok (.scalar r)) ∧
    (∀ (hall : ℝ) (Z : ℚ) (mu theta : ℝ) (p q r : ℝ),
      nondim_tc_i_ji_held hall Z mu theta .all = .triple p q r →
        nondim_tc_i_ji_held hall Z mu theta .parallel = .scalar p ∧
        nondim_tc_i_ji_held hall Z mu theta .perpendicular = .scalar q ∧
        nondim_tc_i_ji_held hall Z mu theta .cross = .scalar r) ∧
    (∀ (hall : ℝ) (Z : ℚ) (ie : Bool) (mu theta : ℝ) (fo fo2 : FieldOrientation),
      nondim_thermal_conductivity hall Z ie ("spitzer-harm") fo mu theta =
        nondim_thermal_conductivity hall Z ie ("spitzer-harm") fo2 mu theta ∧
      nondim_thermal_conductivity hall Z ie ("spitzer") fo mu theta =
        nondim_thermal_conductivity hall Z ie ("spitzer") fo2 mu theta ∧
      nondim_resisitivity hall Z ie ("spitzer-harm") fo =
        nondim_resisitivity hall Z ie ("spitzer-harm") fo2 ∧
      nondim_resisitivity hall Z ie ("spitzer") fo =
        nondim_resisitivity hall Z ie ("spitzer") fo2 ∧
      nondim_te_conductivity hall Z ie ("spitzer-harm") fo =
        nondim_te_conductivity hall Z ie ("spitzer-harm") fo2 ∧
      nondim_te_conductivity hall Z ie ("spitzer") fo =
        nondim_te_conductivity hall Z ie ("spitzer") fo2) := by
  refine ⟨?_, ?_, ?_, ?_, ?_, ?_, ?_, ?_, ?_⟩
  · intro hall Z p q r h
    cases hcz : check_Z brag_allowed_Z Z with
    | error e => simp [nondim_tc_e_braginskii, hcz, Except.map] at h
    | ok idx =>
      simp only [nondim_tc_e_braginskii, hcz, Except.map] at h ⊢
      obtain ⟨h1, h2, h3⟩ := NDResult.triple.inj (Except.ok.inj h)
      exact ⟨by rw [h1], by rw [h2], by rw [h3]⟩
  · intro hall p q r h
    simp only [nondim_tc_i_braginskii] at h ⊢
    obtain ⟨h1, h2, h3⟩ := NDResult.triple.inj h
    exact ⟨by rw [h1], by rw [h2], by rw [h3]⟩
  · intro hall Z p q r h
    cases hcz : check_Z brag_allowed_Z Z with
    | error e => simp [nondim_resist_braginskii, hcz, Except.map] at h
    | ok idx =>
      simp only [nondim_resist_braginskii, hcz, Except.map] at h ⊢
      obtain ⟨h1, h2, h3⟩ := NDResult.triple.inj (Except.ok.inj h)
      exact ⟨by rw [h1], by rw [h2], by rw [h3]⟩
  · intro hall Z p q r h
    cases hcz : check_Z brag_allowed_Z Z with
    | error e => simp [nondim_tec_braginskii, hcz, Except.map] at h
    | ok idx =>
      simp only [nondim_tec_braginskii, hcz, Except.map] at h ⊢
      obtain ⟨h1, h2, h3⟩ := NDResult.triple.inj (Except.ok.inj h)
      exact ⟨by rw [h1], by rw [h2], by rw [h3]⟩
  · intro hall Z p q r h
    cases hcz : check_Z ji_held_allowed_Z (.fin Z) with
    | error e => simp [nondim_tc_e_ji_held, hcz, Except.map] at h
    | ok idx =>
      simp only [nondim_tc_e_ji_held, hcz, Except.map] at h ⊢
      obtain ⟨h1, h2, h3⟩ := NDResult.triple.inj (Except.ok.inj h)
      exact ⟨by rw [h1], by rw [h2], by rw [h3]⟩
  · intro hall Z p q r h
    cases hcz : check_Z ji_held_allowed_Z (.fin Z) with
    | error e => simp [nondim_resist_ji_held, hcz, Except.map] at h
    | ok idx =>
      simp only [nondim_resist_ji_held, hcz, Except.map] at h ⊢
      obtain ⟨h1, h2, h3⟩ := NDResult.triple.inj (Except.ok.inj h)
      exact ⟨by rw [h1], by rw [h2], by rw [h3]⟩
  · intro hall Z p q r h
    cases hcz : check_Z ji_held_allowed_Z (.fin Z) with
    | error e => simp [nondim_tec_ji_held, hcz, Except.map] at h
    | ok idx =>
      simp only [nondim_tec_ji_held, hcz, Except.map] at h ⊢
      obtain ⟨h1, h2, h3⟩ := NDResult.triple.inj (Except.ok.inj h)
      exact ⟨by rw [h1], by rw [h2], by rw [h3]⟩
  · intro hall Z mu theta p q r h
    simp only [nondim_tc_i_ji_held] at h ⊢
    obtain ⟨h1, h2, h3⟩ := NDResult.triple.inj h
    exact ⟨by rw [h1], by rw [h2], by rw [h3]⟩
  · intro hall Z ie mu theta fo fo2
    cases ie <;> exact ⟨rfl, rfl, rfl, rfl, rfl, rfl⟩

/-- C5 witness: the Braginskii ion thermal conductivity at Hall
parameter 0 returns for the all orientation exactly the triple of its
separately requested components. -/
theorem orientation_all_is_componentwise_witness :
    nondim_tc_i_braginskii 0 .all =
      .triple (3.906 : ℝ)
        (((2.0 : ℝ) * (0 : ℝ) ^ 2 + 2.645) /
          ((0 : ℝ) ^ 4 + 2.70 * (0 : ℝ) ^ 2 + 0.677))
        (((2.5 : ℝ) * (0 : ℝ) ^ 3 + 4.65 * (0 : ℝ)) /
          ((0 : ℝ) ^ 4 + 2.70 * (0 : ℝ) ^ 2 + 0.677)) ∧
    (nondim_tc_i_braginskii 0 .parallel = .scalar (3.906 : ℝ) ∧
      nondim_tc_i_braginskii 0 .perpendicular =
        .scalar (((2.0 : ℝ) * (0 : ℝ) ^ 2 + 2.645) /
          ((0 : ℝ) ^ 4 + 2.70 * (0 : ℝ) ^ 2 + 0.677)) ∧
      nondim_tc_i_braginskii 0 .cross =
        .scalar (((2.5 : ℝ) * (0 : ℝ) ^ 3 + 4.65 * (0 : ℝ)) /
          ((0 : ℝ) ^ 4 + 2.70 * (0 : ℝ) ^ 2 + 0.677))) :=
  ⟨rfl, orientation_all_is_componentwise.2.1 0 _ _ _ rfl⟩

/-- C5 counterexample: under the Spitzer-Harm model the resistivity
dispatch returns the same scalar for the all orientation as for
parallel, not a 3-element array of the componentwise results, refuting
the claim for that model. -/
theorem spitzer_all_orientation_counterexample :
    nondim_resisitivity 0 1 true ("spitzer-harm") .all =
      .ok (.scalar (3 * np_pi / 32 * (1 / sh_gamma_E.getD 0 0))) ∧
    nondim_resisitivity 0 1 true ("spitzer-harm") .parallel =
      .ok (.scalar (3 * np_pi / 32 * (1 / sh_gamma_E.getD 0 0))) ∧
    nondim_resisitivity 0 1 true ("spitzer-harm") .all ≠
      .ok (.triple (3 * np_pi / 32 * (1 / sh_gamma_E.getD 0 0))
        (3 * np_pi / 32 * (1 / sh_gamma_E.getD 0 0))
        (3 * np_pi / 32 * (1 / sh_gamma_E.getD 0 0))) := by
  have h1 : nondim_resisitivity 0 1 true ("spitzer-harm") .all =
      .ok (.scalar (3 * np_pi / 32 * (1 / sh_gamma_E.getD 0 0))) := rfl
  refine ⟨h1, rfl, ?_⟩
  rw [h1]
  simp

/-- C6: every (model, coefficient, species) combination with no
model-specific evaluator falls through to the placeholder value 1 in
the nondimensional dispatch functions, returned as an ok value with no
error: any model name outside the four handled spellings for every
dispatcher and species, and the Spitzer-Harm model (both spellings) for
the species/coefficient branches it lacks (ion thermal conductivity,
ion and electron viscosity). -/
theorem unsupported_combination_placeholder (hall : ℝ) (Z : ℚ)
    (fo : FieldOrientation) (mu theta : ℝ) (m : String)
    (h1 : m ≠ "spitzer-harm") (h2 : m ≠ "spitzer")
    (h3 : m ≠ "braginskii") (h4 : m ≠ "ji-held") :
    (∀ ie, nondim_thermal_conductivity hall Z ie m fo mu theta = .ok (.scalar 1)) ∧
    (∀ ie, nondim_viscosity hall Z ie m fo mu theta = .ok (.scalar 1)) ∧
    (∀ ie, nondim_resisitivity hall Z ie m fo = .ok (.scalar 1)) ∧
    (∀ ie, nondim_te_conductivity hall Z ie m fo = .ok (.scalar 1)) ∧
    nondim_thermal_conductivity hall Z false ("spitzer-harm") fo mu theta =
      .ok (.scalar 1) ∧
    nondim_thermal_conductivity hall Z false ("spitzer") fo mu theta =
      .ok (.scalar 1) ∧
    nondim_viscosity hall Z false ("spitzer-harm") fo mu theta = .ok (.scalar 1) ∧
    nondim_viscosity hall Z false ("spitzer") fo mu theta = .ok (.scalar 1) ∧
    nondim_viscosity hall Z true ("spitzer-harm") fo mu theta = .ok (.scalar 1) ∧
    nondim_viscosity hall Z true ("spitzer") fo mu theta = .ok (.scalar 1) := by
  refine ⟨?_, ?_, ?_, ?_, rfl, rfl, rfl, rfl, rfl, rfl⟩ <;>
    · intro ie
      cases ie <;>
        simp [nondim_thermal_conductivity, nondim_viscosity, nondim_resisitivity,
          nondim_te_conductivity, h1, h2, h3, h4]

/-- C6 witness: the placeholder behavior at the unknown model name
epperlein-haines and at the ion/electron Spitzer-Harm gaps. -/
theorem unsupported_combination_placeholder_witness :
    (∀ ie, nondim_thermal_conductivity 0 1 ie ("epperlein-haines") .parallel 0 0 =
      .ok (.scalar 1)) ∧
    (∀ ie, nondim_viscosity 0 1 ie ("epperlein-haines") .parallel 0 0 =
      .ok (.scalar 1)) ∧
    (∀ ie, nondim_resisitivity 0 1 ie ("epperlein-haines") .parallel =
      .ok (.scalar 1)) ∧
    (∀ ie, nondim_te_conductivity 0 1 ie ("epperlein-haines") .parallel =
      .ok (.scalar 1)) ∧
    nondim_thermal_conductivity 0 1 false ("spitzer-harm") .parallel 0 0 =
      .ok (.scalar 1) ∧
    nondim_thermal_conductivity 0 1 false ("spitzer") .parallel 0 0 =
      .ok (.scalar 1) ∧
    nondim_viscosity 0 1 false ("spitzer-harm") .parallel 0 0 = .ok (.scalar 1) ∧
    nondim_viscosity 0 1 false ("spitzer") .parallel 0 0 = .ok (.scalar 1) ∧
    nondim_viscosity 0 1 true ("spitzer-harm") .parallel 0 0 = .ok (.scalar 1) ∧
    nondim_viscosity 0 1 true ("spitzer") .parallel 0 0 = .ok (.scalar 1) :=
  unsupported_combination_placeholder 0 1 .parallel 0 0 ("epperlein-haines")
    (by decide) (by decide) (by decide) (by decide)

theorem ite_gt_eq_max (a b : ℝ) : (if a > b then a else b) = max a b := by
  rcases le_or_lt a b with h | h
  · rw [if_neg (not_lt.mpr h), max_eq_right h]
  · rw [if_pos h, max_eq_left h.le]

/-- C3: Coulomb_logarithm returns log of (Debye length at (T, n_e))
divided by the maximum of the 90-degree deflection parameter
b_perp = q1 q2 / (4 pi eps0 m_r V^2) and the de Broglie wavelength
b_deBroglie = hbar / (2 m_r V), with q_i the absolute charges
|e * cs_i| and reduced mass m_r = m1 m2 / (m1 + m2); and when no
relative velocity is supplied the velocity used satisfies
m_r V^2 = 3 k_B T. -/
theorem Coulomb_logarithm_spec (dl : ℝ → ℝ → ℝ) (m1 m2 cs1 cs2 T n_e : ℝ)
    (V : Option ℝ) :
    Coulomb_logarithm dl m1 m2 cs1 cs2 T n_e V =
      Real.log (dl T n_e /
        max (|e_charge * cs1| * |e_charge * cs2| /
              (4 * np_pi * eps0 * (m1 * m2 / (m1 + m2)) *
                (V.getD (Real.sqrt (3 * k_B * T / (m1 * m2 / (m1 + m2))))) ^ 2))
          (hbar / (2 * (m1 * m2 / (m1 + m2)) *
            V.getD (Real.sqrt (3 * k_B * T / (m1 * m2 / (m1 + m2))))))) ∧
    (V = none → m1 * m2 / (m1 + m2) ≠ 0 →
      0 ≤ 3 * k_B * T / (m1 * m2 / (m1 + m2)) →
      (m1 * m2 / (m1 + m2)) *
          (V.getD (Real.sqrt (3 * k_B * T / (m1 * m2 / (m1 + m2))))) ^ 2 =
        3 * k_B * T) := by
  constructor
  · cases V with
    | none =>
      simp only [Coulomb_logarithm, Option.getD]
      rw [ite_gt_eq_max]
    | some v =>
      simp only [Coulomb_logarithm, Option.getD]
      rw [ite_gt_eq_max]
  · intro hV hm hnn
    subst hV
    simp only [Option.getD]
    rw [Real.sq_sqrt hnn, mul_comm, div_mul_cancel₀ _ hm]

/-- C3 witness: a concrete run with unit masses and charge states and
no supplied velocity; the derived velocity satisfies the equipartition
relation. -/
theorem Coulomb_logarithm_spec_witness :
    (1 * 1 / (1 + 1) : ℝ) *
        ((none : Option ℝ).getD
          (Real.sqrt (3 * k_B * 1 / (1 * 1 / (1 + 1))))) ^ 2 =
      3 * k_B * 1 :=
  (Coulomb_logarithm_spec (fun _ _ => 1) 1 1 1 1 1 1 none).2 rfl (by norm_num)
    (by norm_num [k_B])

/-- C7: for both ion and electron viscosity dimensionalization, each
nondimensional component is multiplied by n * k_B * T * tau; away from
zero Hall parameter components 1 and 2 are additionally divided by the
Hall parameter squared and components 3 and 4 by the Hall parameter,
component 0 undivided; when the Hall parameter is within 1e-8 of zero
no component is divided and the result is exactly the undivided
zero-Hall form. -/
theorem viscosity_dimensionalization (e0 e1 e2 e3 e4 n T tau hall : ℝ) :
    (|hall - 0| ≤ 1e-8 →
      ion_viscosity e0 e1 e2 e3 e4 n T tau hall =
        (e0 * (n * k_B * T * tau), e1 * (n * k_B * T * tau),
         e2 * (n * k_B * T * tau), e3 * (n * k_B * T * tau),
         e4 * (n * k_B * T * tau)) ∧
      electron_viscosity e0 e1 e2 e3 e4 n T tau hall =
        (e0 * (n * k_B * T * tau), e1 * (n * k_B * T * tau),
         e2 * (n * k_B * T * tau), e3 * (n * k_B * T * tau),
         e4 * (n * k_B * T * tau))) ∧
    (¬ |hall - 0| ≤ 1e-8 →
      ion_viscosity e0 e1 e2 e3 e4 n T tau hall =
        (e0 * (n * k_B * T * tau), e1 * (n * k_B * T * tau) / hall ^ 2,
         e2 * (n * k_B * T * tau) / hall ^ 2, e3 * (n * k_B * T * tau) / hall,
         e4 * (n * k_B * T * tau) / hall) ∧
      electron_viscosity e0 e1 e2 e3 e4 n T tau hall =
        (e0 * (n * k_B * T * tau), e1 * (n * k_B * T * tau) / hall ^ 2,
         e2 * (n * k_B * T * tau) / hall ^ 2, e3 * (n * k_B * T * tau) / hall,
         e4 * (n * k_B * T * tau) / hall)) := by
  constructor
  · intro h
    constructor
    · unfold ion_viscosity
      rw [if_pos h]
    · unfold electron_viscosity
      rw [if_pos h]
  · intro h
    constructor
    · unfold ion_viscosity
      rw [if_neg h]
    · unfold electron_viscosity
      rw [if_neg h]

/-- C7 witness: the guarded zero-Hall branch at Hall parameter 0 and
the divided branch at Hall parameter 1. -/
theorem viscosity_dimensionalization_witness :
    (ion_viscosity 1 1 1 1 1 1 1 1 0 =
        ((1 : ℝ) * (1 * k_B * 1 * 1), 1 * (1 * k_B * 1 * 1), 1 * (1 * k_B * 1 * 1),
         1 * (1 * k_B * 1 * 1), 1 * (1 * k_B * 1 * 1)) ∧
      electron_viscosity 1 1 1 1 1 1 1 1 0 =
        ((1 : ℝ) * (1 * k_B * 1 * 1), 1 * (1 * k_B * 1 * 1), 1 * (1 * k_B * 1 * 1),
         1 * (1 * k_B * 1 * 1), 1 * (1 * k_B * 1 * 1))) ∧
    (ion_viscosity 1 1 1 1 1 1 1 1 1 =
        ((1 : ℝ) * (1 * k_B * 1 * 1), 1 * (1 * k_B * 1 * 1) / 1 ^ 2,
         1 * (1 * k_B * 1 * 1) / 1 ^ 2, 1 * (1 * k_B * 1 * 1) / 1,
         1 * (1 * k_B * 1 * 1) / 1) ∧
      electron_viscosity 1 1 1 1 1 1 1 1 1 =
        ((1 : ℝ) * (1 * k_B * 1 * 1), 1 * (1 * k_B * 1 * 1) / 1 ^ 2,
         1 * (1 * k_B * 1 * 1) / 1 ^ 2, 1 * (1 * k_B * 1 * 1) / 1,
         1 * (1 * k_B * 1 * 1) / 1)) :=
  ⟨(viscosity_dimensionalization 1 1 1 1 1 1 1 1 0).1 (by norm_num),
   (viscosity_dimensionalization 1 1 1 1 1 1 1 1 1).2 (by norm_num)⟩

/-- C9 (amended): classical_transport lowercases the elements of the
caller coeffs list in place, so after the call the list holds the
lowercased names; it is unchanged only when the names were already
lowercase. -/
theorem classical_transport_mutates_coeffs (C : Collaborators) (coeffs : List String)
    (T_e n_e T_i n_i : ℚ) (ion_particle : String) (Z : Option ZVal) (B : ℚ)
    (model field_orientation : String)
    (coulomb_log_ei V_ei coulomb_log_ii V_ii hall_e hall_i : Option ℚ) :
    (classical_transport C coeffs T_e n_e T_i n_i ion_particle Z B model
        field_orientation coulomb_log_ei V_ei coulomb_log_ii V_ii
        hall_e hall_i).1 =
      coeffs.map str_lower := rfl

/-- C9 counterexample: a caller passing a mixed-case coefficient name
observes a changed list after the call. -/
theorem classical_transport_mutates_coeffs_counterexample :
    (classical_transport witness_collab ["Resistivity"] 1 1 1 1 ("p")
        (some (.fin 1)) 0 ("braginskii") ("parallel") (some 10) none (some 10)
        none none none).1 ≠
      ["Resistivity"] := by
  decide

/-- C8 (amended): classical_transport validates the model name against
the four-member set braginskii, spitzer, spitzer-harm, ji-held (two of
them spellings of Spitzer-Harm); any name outside that set, including
the documented but unimplemented Epperlein-Haines model, is rejected
with an input error before any computation (the run produces no events
and no output). -/
theorem model_validation (C : Collaborators) (coeffs : List String)
    (T_e n_e T_i n_i : ℚ) (ion_particle : String) (Z : Option ZVal) (B : ℚ)
    (model field_orientation : String)
    (coulomb_log_ei V_ei coulomb_log_ii V_ii hall_e hall_i : Option ℚ)
    (h1 : (coeffs.map str_lower).find?
        (fun c => !(valid_coeffs.contains c)) = none)
    (h2 : valid_models.contains (str_lower model) = false) :
    (classical_transport C coeffs T_e n_e T_i n_i ion_particle Z B model
        field_orientation coulomb_log_ei V_ei coulomb_log_ii V_ii
        hall_e hall_i).2 =
      ([], .error ("Unknown transport model " ++ str_lower model)) ∧
    valid_models = ["braginskii", "spitzer", "spitzer-harm", "ji-held"] := by
  refine ⟨?_, rfl⟩
  unfold classical_transport
  simp only [h1, h2, Bool.not_false, if_true]

/-- C8 witness: an arbitrary unknown model name is rejected before any
computation. -/
theorem model_validation_witness :
    (classical_transport witness_collab ["resistivity"] 1 1 1 1 ("p")
        (some (.fin 1)) 0 ("no-such-model") ("parallel") (some 10) none
        (some 10) none none none).2 =
      ([], .error ("Unknown transport model " ++ str_lower ("no-such-model"))) ∧
    valid_models = ["braginskii", "spitzer", "spitzer-harm", "ji-held"] :=
  model_validation witness_collab ["resistivity"] 1 1 1 1 ("p") (some (.fin 1)) 0
    ("no-such-model") ("parallel") (some 10) none (some 10) none none none
    (by decide) (by decide)

/-- C8 counterexample: the reserved Epperlein-Haines model name is not
accepted by the validation step; requesting it raises the unknown-model
input error. -/
theorem epperlein_haines_rejected_counterexample :
    (classical_transport witness_collab ["resistivity"] 1 1 1 1 ("p")
        (some (.fin 1)) 0 ("Epperlein-Haines") ("parallel") (some 10) none
        (some 10) none none none).2.2 =
      .error ("Unknown transport model epperlein-haines") := by
  decide

/-- C10: whenever coulomb_log_ii is not supplied, the ion-ion Coulomb
logarithm recorded in the output is the Coulomb_logarithm collaborator
evaluated at the ion temperature T_i together with the electron density
n_e (not the ion density) and the particle pair (ion_particle,
ion_particle), with the optional V_ii. -/
theorem coulomb_log_ii_arguments (C : Collaborators) (coeffs : List String)
    (T_e n_e T_i n_i : ℚ) (ion_particle : String) (Z : Option ZVal) (B : ℚ)
    (model field_orientation : String)
    (coulomb_log_ei V_ei V_ii hall_e hall_i : Option ℚ) (out : CTOut)
    (h : (classical_transport C coeffs T_e n_e T_i n_i ion_particle Z B model
        field_orientation coulomb_log_ei V_ei none V_ii hall_e hall_i).2.2 =
      .ok out) :
    out.coulomb_log_ii = C.coulomb_log T_i n_e ion_particle ion_particle V_ii := by
  simp only [classical_transport] at h
  repeat' split at h
  all_goals first
  | (cases h; rfl)
  | simp_all

/-- C10 witness: a concrete run with coulomb_log_ii unsupplied; the
output records the collaborator value at (T_i, n_e, ion, ion). -/
theorem coulomb_log_ii_arguments_witness :
    (CTOut.mk [0] 0 0 10 10).coulomb_log_ii =
      witness_collab.coulomb_log 1 1 ("p") ("p") none :=
  coulomb_log_ii_arguments witness_collab ["resistivity"] 1 1 1 1 ("p")
    (some (.fin 1)) 0 ("braginskii") ("parallel") (some 10) none none none none
    (CTOut.mk [0] 0 0 10 10) (by decide)

set_option maxHeartbeats 1600000 in
/-- C4: in classical_transport, with validation and species resolution
successful, let rei and rii be the resolved electron-ion and ion-ion
Coulomb logarithms (supplied or computed).  A resolved value below 4
emits a non-fatal strong-coupling warning; a resolved value below 1
makes the run fail with the physical-validity error, and the event
trace of such a failing run contains no transport-evaluator invocation,
so the error precedes every coefficient evaluation. -/
theorem coulomb_log_validity_enforcement (C : Collaborators) (coeffs : List String)
    (T_e n_e T_i n_i : ℚ) (ion_particle : String) (Z : Option ZVal) (B : ℚ)
    (model field_orientation : String)
    (coulomb_log_ei V_ei coulomb_log_ii V_ii hall_e hall_i : Option ℚ)
    (h1 : (coeffs.map str_lower).find? (fun c => !(valid_coeffs.contains c)) = none)
    (h2 : valid_models.contains (str_lower model) = true)
    (h3 : valid_fields.contains (str_lower field_orientation) = true)
    (m_i : ℚ) (h4 : C.ion_mass ion_particle = some m_i)
    (z : ZVal) (h5 : resolve_Z C Z ion_particle = .ok z)
    (rei rii : ℚ)
    (hrei : rei = coulomb_log_ei.getD (C.coulomb_log T_e n_e ("e") ion_particle V_ei))
    (hrii : rii = coulomb_log_ii.getD
      (C.coulomb_log T_i n_e ion_particle ion_particle V_ii)) :
    ∀ evs res,
      (classical_transport C coeffs T_e n_e T_i n_i ion_particle Z B model
          field_orientation coulomb_log_ei V_ei coulomb_log_ii V_ii
          hall_e hall_i).2 = (evs, res) →
      (rei < 4 → Event.warnCoulombEi rei ∈ evs) ∧
      (rei < 1 →
        res = .error ("coulomb_log_ei is " ++ toString rei ++ ", less than 1") ∧
          ∀ s, Event.callEvaluator s ∉ evs) ∧
      (1 ≤ rei → rii < 4 → Event.warnCoulombIi rii ∈ evs) ∧
      (1 ≤ rei → rii < 1 →
        res = .error ("coulomb_log_ii is " ++ toString rii ++ ", less than 1") ∧
          ∀ s, Event.callEvaluator s ∉ evs) := by
  intro evs res h
  subst hrei
  subst hrii
  simp only [classical_transport, h1, h2, h3, h4, h5, Bool.not_true,
    Bool.false_eq_true, if_false] at h
  rcases coulomb_log_ei with _ | vei <;> rcases coulomb_log_ii with _ | vii <;>
    simp only [Option.getD] at h ⊢ <;>
    repeat' split at h
  all_goals cases h
  all_goals refine ⟨fun ha => ?_, fun hb => ?_, fun hc hd => ?_, fun he hf => ?_⟩
  any_goals (exfalso; linarith)
  any_goals simp_all

/-- C4 witness: a concrete run with an explicit coulomb_log_ei
override of 0 emits the strong-coupling warning and fails with the
physical-validity error, with no evaluator invocation in the trace. -/
theorem coulomb_log_validity_enforcement_witness :
    Event.warnCoulombEi (0 : ℚ) ∈ [Event.warnCoulombEi (0 : ℚ)] ∧
    ((Except.error ("coulomb_log_ei is " ++ toString (0 : ℚ) ++ ", less than 1") :
        Except String CTOut) =
      .error ("coulomb_log_ei is " ++ toString (0 : ℚ) ++ ", less than 1") ∧
      ∀ s, Event.callEvaluator s ∉ [Event.warnCoulombEi (0 : ℚ)]) := by
  have h := coulomb_log_validity_enforcement witness_collab ["resistivity"] 1 1 1 1
    ("p") (some (.fin 1)) 0 ("braginskii") ("parallel") (some 0) none (some 10)
    none none none (by decide) (by decide) (by decide) 1 rfl (.fin 1) (by decide)
    0 10 rfl rfl
    [Event.warnCoulombEi (0 : ℚ)]
    (Except.error ("coulomb_log_ei is " ++ toString (0 : ℚ) ++ ", less than 1"))
    (by decide)
  exact ⟨h.1 (by norm_num), h.2.1 (by norm_num)⟩
